import Mathlib

/-!
# droidreader: the JNI binding `trunk/jni/pdfrender.c`

A shallow embedding of the entry points `nativeOpen`, `nativeClose`,
`nativeOpenPage` and `nativeCreateView` of the binding and of its helper
`throw_exception`.

* Native pointers, `jlong` handles, `jclass` and `jfieldID` values are natural
  numbers, `0` being `NULL`.
* The wrapped library (Fitz / MuPDF) and the Java runtime are not part of the
  file.  They appear as two records of functions, `Fitz` and `JNIEnv`, that say
  what each call returns for the arguments it is given.
* Every entry point returns, next to its C result, the sequence of calls it
  made (`Call`), in program order, each with the values it returned.
* An access through a dangling handle, outside an array, or through a `NULL`
  array pointer has no defined behaviour in C; the entry points that can do so
  return `Option`, with `none` for such a run.
* `unsigned int` pixels are natural numbers below `2 ^ 32`.
-/

namespace PdfRender

/-! ## Values -/

/-- Native pointer, `jlong` handle, `jclass` or `jfieldID`; `0` is `NULL`. -/
abbrev Ptr := Nat

/-- The null pointer. -/
def NULL : Ptr := 0

/-- Fitz error code; `0` means no error. -/
abbrev fz_error := Int

/-- A `jfloat` / C `float`, by its bit pattern (the binding only copies them). -/
abbrev jfloat := Nat

/-- Bytes per pixel. -/
def BYPP : Nat := 4

/-! Exception classes (lines 52-58). -/

def EXC : String := "java/lang/Exception"
def EXC_CANNOT_REPAIR : String := "java/lang/Exception"
def EXC_CANNOT_DECRYPTXREF : String := "java/lang/Exception"
def EXC_NEED_PASSWORD : String := "java/lang/Exception"
def EXC_PAGELOAD : String := "java/lang/Exception"
def EXC_PAGERENDER : String := "java/lang/Exception"
def EXC_WRONG_PASSWORD : String := "java/lang/Exception"

/-- Fields of `struct renderdocument_s`.  `fz_malloc` does not initialise the
struct: a field is `none` until it has been assigned. -/
structure renderdocument_t where
  xref : Option Ptr
  outline : Option Ptr
  rast : Option Ptr
  deriving DecidableEq, Repr

/-- Fields of `struct renderpage_s` that the binding uses (`ctm` and `bbox` are
never touched). -/
structure renderpage_t where
  page : Option Ptr
  deriving DecidableEq, Repr

structure fz_rect where
  x0 : jfloat
  y0 : jfloat
  x1 : jfloat
  y1 : jfloat
  deriving DecidableEq, Repr

structure fz_irect where
  x0 : Int
  y0 : Int
  x1 : Int
  y1 : Int
  deriving DecidableEq, Repr

structure fz_matrix where
  a : jfloat
  b : jfloat
  c : jfloat
  d : jfloat
  e : jfloat
  f : jfloat
  deriving DecidableEq, Repr

/-- Fields of the library's `pdf_page` that the binding reads. -/
structure pdf_page where
  mediabox : fz_rect
  rotate : Int
  tree : Ptr
  deriving DecidableEq, Repr

/-- Fields of the library's `fz_pixmap` that the binding reads.  Its `samples`
pointer is the caller's buffer, over which the pixmap was created. -/
structure fz_pixmap where
  w : Int
  h : Int
  deriving DecidableEq, Repr

/-! ## Calls -/

/-- One call made by the binding, with its arguments and, where the binding
looks at it, the value returned. -/
inductive Call where
  | DEBUG (fmt : String)
  | INFO (fmt : String)
  | ERROR (fmt : String)
  | throw_exception (exception_class message : String)
  | FindClass (name : String) (ret : Ptr)
  | ThrowNew (cls : Ptr) (message : String)
  | GetStringUTFChars (s : String)
  | ReleaseStringUTFChars (s : String)
  | GetObjectClass
  | GetFieldID (name sig : String) (ret : Ptr)
  | NewStringUTF (s : String)
  | SetObjectField (fid : Ptr) (value : String)
  | SetIntField (fid : Ptr) (value : Int)
  | GetPrimitiveArrayCritical (array : String)
  | ReleasePrimitiveArrayCritical (array : String)
  | fz_malloc (ret : Ptr)
  | fz_free (p : Ptr)
  | fz_newrenderer (maxmem : Int) (ret : fz_error) (rast : Ptr)
  | fz_droprenderer (rast : Ptr)
  | pdf_newxref (ret : Ptr)
  | pdf_loadxref (xref : Ptr) (filename : String) (ret : fz_error)
  | fz_catch (error : fz_error) (fmt : String)
  | pdf_repairxref (xref : Ptr) (filename : String) (ret : fz_error)
  | pdf_decryptxref (xref : Ptr) (ret : fz_error)
  | pdf_needspassword (xref : Ptr) (ret : Int)
  | pdf_authenticatepassword (xref : Ptr) (password : String) (ret : fz_error)
  | fz_dictgets (dict : Ptr) (key : String) (ret : Ptr)
  | fz_resolveindirect (obj : Ptr) (ret : Ptr)
  | fz_throw (fmt : String)
  | fz_keepobj (obj : Ptr)
  | pdf_loadoutline (xref : Ptr) (ret : Ptr)
  | pdf_toutf8 (obj : Ptr)
  | pdf_getpagecount (xref : Ptr) (ret : Int)
  | pdf_closexref (xref : Ptr)
  | pdf_dropoutline (outline : Ptr)
  | pdf_dropstore (store : Ptr)
  | pdf_flushxref (xref : Ptr) (force : Int)
  | pdf_getpageobject (xref : Ptr) (pageno : Int) (ret : Ptr)
  | pdf_loadpage (xref obj : Ptr) (ret : fz_error)
  | fz_newpixmapwithbufferandrect (bbox : fz_irect) (n : Nat) (ret : fz_error)
  | fz_rendertreetopixmap (rast tree : Ptr) (ctm : fz_matrix) (bbox : fz_irect)
      (white : Int) (ret : fz_error)
  | fz_droppixmapwithoutbuffer
  deriving DecidableEq, Repr

/-! ## The two environments -/

/-- The Java runtime, as far as the binding asks it something. -/
structure JNIEnv where
  /-- `FindClass`: the class reference, `NULL` when the class is not found. -/
  FindClass : String → Ptr
  /-- `GetFieldID` on the class of `this`: name, signature; `NULL` when absent. -/
  GetFieldID : String → String → Ptr
  /-- `GetPrimitiveArrayCritical` on the named array argument: `false` when it
  returns `NULL`. -/
  GetPrimitiveArrayCritical : String → Bool

/-- The Java object `this`: its `int` fields and its `String` fields, by field
id. -/
structure JObject where
  intField : Ptr → Int
  objectField : Ptr → Option String

/-- `SetIntField`. -/
def JObject.SetIntField (o : JObject) (fid : Ptr) (v : Int) : JObject :=
  { o with intField := fun k => if k = fid then v else o.intField k }

/-- `SetObjectField` with a `jstring` value. -/
def JObject.SetObjectField (o : JObject) (fid : Ptr) (v : String) : JObject :=
  { o with objectField := fun k => if k = fid then some v else o.objectField k }

/-- The wrapped library during one call of an entry point: the value each
library call returns for its arguments. -/
structure Fitz where
  /-- The pointer returned by the one `fz_malloc` of the entry point; `NULL`
  when the allocation fails. -/
  fz_malloc : Ptr
  /-- Error code and the renderer stored through `&doc->rast`. -/
  fz_newrenderer : Int → fz_error × Ptr
  pdf_newxref : Ptr
  pdf_loadxref : Ptr → String → fz_error
  pdf_repairxref : Ptr → String → fz_error
  pdf_decryptxref : Ptr → fz_error
  pdf_needspassword : Ptr → Int
  pdf_authenticatepassword : Ptr → String → fz_error
  /-- The field `xref->trailer` when `nativeOpen` reads it. -/
  trailer : Ptr → Ptr
  fz_dictgets : Ptr → String → Ptr
  fz_resolveindirect : Ptr → Ptr
  pdf_loadoutline : Ptr → Ptr
  pdf_toutf8 : Ptr → String
  pdf_getpagecount : Ptr → Int
  pdf_getpageobject : Ptr → Int → Ptr
  /-- Error code, the pointer stored through `&page->page`, and the page it
  points to. -/
  pdf_loadpage : Ptr → Ptr → fz_error × Ptr × pdf_page
  /-- Called with the words behind `buffer`, or `none` when `buffer` is `NULL`:
  error code, the pixmap stored through `&pixmap`, and the words behind
  `buffer` as the call leaves them. -/
  fz_newpixmapwithbufferandrect :
    Option (List Nat) → fz_irect → Nat → fz_error × fz_pixmap × List Nat
  /-- Called with the words behind the buffer of the pixmap, or `none` when that
  buffer is `NULL`: error code, the pixmap left in `pixmap`, and the words
  behind the buffer as the call leaves them. -/
  fz_rendertreetopixmap :
    fz_pixmap → Ptr → Ptr → fz_matrix → fz_irect → Int → Option (List Nat) →
      fz_error × fz_pixmap × List Nat

/-- Native memory the handles point into. -/
structure Heap where
  /-- The `renderdocument_t` a document handle points to, if it is live. -/
  docs : Ptr → Option renderdocument_t
  /-- The field `xref->store` of a live `pdf_xref`. -/
  xref_store : Ptr → Option Ptr
  /-- The `renderpage_t` a page handle points to, if it is live. -/
  pages : Ptr → Option renderpage_t
  /-- The library's `pdf_page` objects. -/
  pdf_pages : Ptr → Option pdf_page

/-! ## Helper (lines 83-91) -/

/-- Function `throw_exception`. -/
def throw_exception (jni : JNIEnv) (exception_class message : String) : List Call :=
  let new_exception := jni.FindClass exception_class
  [Call.throw_exception exception_class message, Call.FindClass exception_class new_exception] ++
    (if new_exception = NULL then
      [Call.ERROR "cannot create Exception '%s', Message was '%s'"]
    else
      [Call.ThrowNew new_exception message])

/-- C `strlen` of the string obtained from `GetStringUTFChars`: its number of
bytes. -/
def strlen (s : String) : Nat := s.utf8ByteSize

/-! ## The pixel transform (lines 388-390) -/

/-- The right-hand side of the assignment to `col[val]`, on `unsigned int`. -/
def pixel (x : Nat) : Nat :=
  ((x &&& 0xFF000000) >>> 24) |||
  ((x &&& 0x00FF0000) >>> 8) |||
  (((x &&& 0x0000FF00) <<< 8) % 2 ^ 32)

/-- Byte `i` of a word, byte `0` being the least significant. -/
def byteAt (x i : Nat) : Nat := x / 2 ^ (8 * i) % 256

/-! ## Document handles (lines 106-259) -/

/-- What `nativeOpen` leaves behind. -/
structure OpenResult where
  /-- The returned `jlong`. -/
  ret : Ptr
  trace : List Call
  /-- The struct `*doc` at return (meaningful when `ret` is not `NULL`). -/
  doc : renderdocument_t
  /-- The value assigned to `doc->xref->root`, if the assignment was reached. -/
  root : Option Ptr
  /-- The value assigned to `doc->xref->info`, if the assignment was reached. -/
  info : Option Ptr
  /-- The Java object `this` at return. -/
  this : JObject

/-- Label `cleanup:` of `nativeOpen` (lines 228-234). -/
def nativeOpen_cleanup (fname pwd : String) (doc : Ptr) (trace : List Call)
    (d : renderdocument_t) (root info : Option Ptr) (this : JObject) : OpenResult :=
  { ret := doc
    trace := trace ++
      [Call.ReleaseStringUTFChars fname, Call.ReleaseStringUTFChars pwd,
       Call.DEBUG "PdfDocument.nativeOpen(): return handle = %p"]
    doc := d
    root := root
    info := info
    this := this }

/-- The title block of `nativeOpen` (lines 208-218): calls made and the object
afterwards. -/
def nativeOpen_title (jni : JNIEnv) (lib : Fitz) (this : JObject) (info : Ptr) :
    List Call × JObject :=
  if info ≠ NULL then
    let obj := lib.fz_dictgets info "Title"
    if obj ≠ NULL then
      let fid := jni.GetFieldID "metaTitle" "Ljava/lang/String;"
      if fid ≠ NULL then
        let jstr := lib.pdf_toutf8 obj
        ([Call.fz_dictgets info "Title" obj,
          Call.GetFieldID "metaTitle" "Ljava/lang/String;" fid,
          Call.pdf_toutf8 obj, Call.NewStringUTF jstr, Call.SetObjectField fid jstr],
         this.SetObjectField fid jstr)
      else
        ([Call.fz_dictgets info "Title" obj,
          Call.GetFieldID "metaTitle" "Ljava/lang/String;" fid], this)
    else
      ([Call.fz_dictgets info "Title" obj], this)
  else
    ([], this)

/-- Lines 184-226 of `nativeOpen`: load document metadata.  `t` is the
sequence of calls made so far. -/
def nativeOpen_metadata (jni : JNIEnv) (lib : Fitz) (this : JObject) (fname pwd : String)
    (doc xref rast : Ptr) (t : List Call) : OpenResult :=
  let d1 : renderdocument_t := ⟨some xref, none, some rast⟩
  let obj := lib.fz_dictgets (lib.trailer xref) "Root"
  let root := lib.fz_resolveindirect obj
  let t7 := t ++ [Call.fz_dictgets (lib.trailer xref) "Root" obj, Call.fz_resolveindirect obj root]
  if root = NULL then
    nativeOpen_cleanup fname pwd doc
      (t7 ++ [Call.fz_throw "syntaxerror: missing Root object"] ++
        throw_exception jni EXC "PDF syntax: missing \"Root\" object") d1 (some root) none this
  else
  let obj := lib.fz_dictgets (lib.trailer xref) "Info"
  let info := lib.fz_resolveindirect obj
  let t8 := t7 ++ [Call.fz_keepobj root, Call.fz_dictgets (lib.trailer xref) "Info" obj,
      Call.fz_resolveindirect obj info] ++
    (if info ≠ NULL then [Call.fz_keepobj info] else [])
  let outline := lib.pdf_loadoutline xref
  let d2 : renderdocument_t := ⟨some xref, some outline, some rast⟩
  let t9 := t8 ++ [Call.GetObjectClass, Call.pdf_loadoutline xref outline]
  let title := nativeOpen_title jni lib this info
  let t10 := t9 ++ title.1
  let fid := jni.GetFieldID "pagecount" "I"
  let t11 := t10 ++ [Call.GetFieldID "pagecount" "I" fid]
  if fid ≠ NULL then
    let n := lib.pdf_getpagecount xref
    nativeOpen_cleanup fname pwd doc
      (t11 ++ [Call.pdf_getpagecount xref n, Call.SetIntField fid n])
      d2 (some root) (some info) (title.2.SetIntField fid n)
  else
    nativeOpen_cleanup fname pwd doc
      (t11 ++ throw_exception jni EXC "cannot access instance fields!")
      d2 (some root) (some info) title.2

/-- Lines 158-226 of `nativeOpen`: decrypt the xref table, handle encrypted
files, then load the metadata.  `t` is the sequence of calls made so far. -/
def nativeOpen_decrypt (jni : JNIEnv) (lib : Fitz) (this : JObject) (fname pwd : String)
    (doc xref rast : Ptr) (t : List Call) : OpenResult :=
  let password := pwd
  let d1 : renderdocument_t := ⟨some xref, none, some rast⟩
  let error := lib.pdf_decryptxref xref
  let t4 := t ++ [Call.pdf_decryptxref xref error]
  if error ≠ 0 then
    nativeOpen_cleanup fname pwd doc
      (t4 ++ throw_exception jni EXC_CANNOT_DECRYPTXREF "Cannot decrypt XRef table")
      d1 none none this
  else
  /- Handle encrypted PDF files -/
  let needs := lib.pdf_needspassword xref
  let t5 := t4 ++ [Call.pdf_needspassword xref needs]
  if needs ≠ 0 then
    if strlen password ≠ 0 then
      let error := lib.pdf_authenticatepassword xref password
      let t6 := t5 ++ [Call.pdf_authenticatepassword xref password error]
      if error ≠ 0 then
        nativeOpen_cleanup fname pwd doc
          (t6 ++ throw_exception jni EXC_WRONG_PASSWORD "Wrong password given") d1 none none this
      else
        nativeOpen_metadata jni lib this fname pwd doc xref rast t6
    else
      nativeOpen_cleanup fname pwd doc
        (t5 ++ throw_exception jni EXC_NEED_PASSWORD "PDF needs a password!") d1 none none this
  else
    nativeOpen_metadata jni lib this fname pwd doc xref rast t5

/-- Entry point `Java_de_hilses_droidreader_PdfDocument_nativeOpen`. -/
def nativeOpen (jni : JNIEnv) (lib : Fitz) (this : JObject)
    (fitzmemory : Int) (fname pwd : String) : OpenResult :=
  let filename := fname
  let doc := lib.fz_malloc
  let t0 : List Call :=
    [Call.DEBUG "PdfDocument(%p).nativeOpen(%i, \"%p\", \"%p\")",
     Call.GetStringUTFChars fname, Call.GetStringUTFChars pwd, Call.fz_malloc doc]
  if doc = NULL then
    nativeOpen_cleanup fname pwd doc (t0 ++ throw_exception jni EXC "Out of Memory")
      ⟨none, none, none⟩ none none this
  else
  /- initialize renderer -/
  let error := (lib.fz_newrenderer fitzmemory).1
  let rast := (lib.fz_newrenderer fitzmemory).2
  let t1 := t0 ++ [Call.fz_newrenderer fitzmemory error rast]
  if error ≠ 0 then
    nativeOpen_cleanup fname pwd doc (t1 ++ throw_exception jni EXC "Cannot create new renderer")
      ⟨none, none, some rast⟩ none none this
  else
  /- Open PDF and load xref table -/
  let xref := lib.pdf_newxref
  let d1 : renderdocument_t := ⟨some xref, none, some rast⟩
  let error := lib.pdf_loadxref xref filename
  let t2 := t1 ++ [Call.pdf_newxref xref, Call.pdf_loadxref xref filename error]
  if error ≠ 0 then
    let error2 := lib.pdf_repairxref xref filename
    let t3 := t2 ++ [Call.fz_catch error "trying to repair",
      Call.INFO "Corrupted file '%s', trying to repair",
      Call.pdf_repairxref xref filename error2]
    if error2 ≠ 0 then
      nativeOpen_cleanup fname pwd doc
        (t3 ++ throw_exception jni EXC_CANNOT_REPAIR "PDF file is corrupted") d1 none none this
    else
      nativeOpen_decrypt jni lib this fname pwd doc xref rast t3
  else
    nativeOpen_decrypt jni lib this fname pwd doc xref rast t2

/-- What `nativeClose` leaves behind. -/
structure CloseResult where
  ret : Ptr
  trace : List Call
  deriving DecidableEq, Repr

/-- Entry point `Java_de_hilses_droidreader_PdfDocument_nativeClose`; `none`
when the handle is dangling or a field it reads was never assigned. -/
def nativeClose (h : Heap) (handle : Ptr) : Option CloseResult :=
  let doc := handle
  if doc ≠ NULL then
    (h.docs doc).bind fun d =>
    d.outline.bind fun outline =>
    d.xref.bind fun xref =>
    (h.xref_store xref).bind fun store =>
    d.rast.bind fun rast =>
    some
      { ret := doc
        trace := [Call.DEBUG "PdfDocument(%p).nativeClose(%p)"] ++
          (if outline ≠ NULL then [Call.pdf_dropoutline outline] else []) ++
          (if store ≠ NULL then [Call.pdf_dropstore store] else []) ++
          [Call.pdf_closexref xref, Call.fz_droprenderer rast, Call.fz_free doc,
           Call.DEBUG "PdfDocument.nativeClose(): return handle = %p"] }
  else
    some
      { ret := doc
        trace := [Call.DEBUG "PdfDocument(%p).nativeClose(%p)",
                  Call.DEBUG "PdfDocument.nativeClose(): return handle = %p"] }

/-! ## Page handles (lines 261-311) -/

/-- An assignment `a[i] = v` into a native array; `none` outside the array. -/
def store (a : List α) (i : Nat) (v : α) : Option (List α) :=
  if i < a.length then some (a.set i v) else none

/-- What `nativeOpenPage` leaves behind. -/
structure OpenPageResult where
  /-- The returned `jlong`. -/
  ret : Ptr
  trace : List Call
  /-- The struct `*page` at return (meaningful when `ret` is not `NULL`). -/
  page : renderpage_t
  /-- The Java array `mediabox` at return. -/
  mediabox : List jfloat
  /-- The Java object `this` at return. -/
  this : JObject

/-- Entry point `Java_de_hilses_droidreader_PdfPage_nativeOpenPage`; `none`
when the document handle is dangling or the array has fewer than four
elements. -/
def nativeOpenPage (jni : JNIEnv) (lib : Fitz) (h : Heap) (this : JObject)
    (dochandle : Ptr) (mediabox : List jfloat) (pageno : Int) : Option OpenPageResult :=
  let doc := dochandle
  let page := lib.fz_malloc
  let t0 : List Call := [Call.DEBUG "PdfPage(%p).nativeOpenPage(%p)", Call.fz_malloc page]
  if page = NULL then
    some
      { ret := NULL
        trace := t0 ++ throw_exception jni EXC "Out of Memory"
        page := ⟨none⟩
        mediabox := mediabox
        this := this }
  else
  (h.docs doc).bind fun d =>
  d.xref.bind fun xref =>
  let obj := lib.pdf_getpageobject xref pageno
  let error := (lib.pdf_loadpage xref obj).1
  let pagep := (lib.pdf_loadpage xref obj).2.1
  let pdfpage := (lib.pdf_loadpage xref obj).2.2
  let t1 := t0 ++ [Call.pdf_flushxref xref 0, Call.pdf_getpageobject xref pageno obj,
    Call.pdf_loadpage xref obj error]
  let cleanup : List Call := [Call.DEBUG "PdfPage.nativeOpenPage(): return handle = %p"]
  if error ≠ 0 then
    some
      { ret := page
        trace := t1 ++ throw_exception jni EXC_PAGELOAD "error loading page" ++ cleanup
        page := ⟨some pagep⟩
        mediabox := mediabox
        this := this }
  else
  let t2 := t1 ++ [Call.GetPrimitiveArrayCritical "mediabox"]
  if jni.GetPrimitiveArrayCritical "mediabox" = false then
    some
      { ret := page
        trace := t2 ++ throw_exception jni EXC "out of memory" ++ cleanup
        page := ⟨some pagep⟩
        mediabox := mediabox
        this := this }
  else
  (store mediabox 0 pdfpage.mediabox.x0).bind fun bbox =>
  (store bbox 1 pdfpage.mediabox.y0).bind fun bbox =>
  (store bbox 2 pdfpage.mediabox.x1).bind fun bbox =>
  (store bbox 3 pdfpage.mediabox.y1).bind fun bbox =>
  let fid := jni.GetFieldID "rotate" "I"
  let t3 := t2 ++ [Call.ReleasePrimitiveArrayCritical "mediabox", Call.GetObjectClass,
    Call.GetFieldID "rotate" "I" fid]
  if fid ≠ NULL then
    some
      { ret := page
        trace := t3 ++ [Call.SetIntField fid pdfpage.rotate] ++ cleanup
        page := ⟨some pagep⟩
        mediabox := bbox
        this := this.SetIntField fid pdfpage.rotate }
  else
    some
      { ret := page
        trace := t3 ++ throw_exception jni EXC "cannot access instance fields!" ++ cleanup
        page := ⟨some pagep⟩
        mediabox := bbox
        this := this }

/-! ## Rendering (lines 329-404) -/

def INT_MIN : Int := -2 ^ 31
def INT_MAX : Int := 2 ^ 31 - 1

/-- Multiplication of two `int`; signed overflow has no defined result. -/
def int_mul (a b : Int) : Option Int :=
  if INT_MIN ≤ a * b ∧ a * b ≤ INT_MAX then some (a * b) else none

/-- The `for` loop of lines 387-391 with counter `val` and `n` iterations still
to run (`n` is `length - val`, or `0` when `length ≤ val`); `none` when
`col[val]` is outside the buffer. -/
def pixel_loop (col : List Nat) (val : Nat) : Nat → Option (List Nat)
  | 0 => some col
  | n + 1 =>
    match col[val]? with
    | none => none
    | some c => pixel_loop (col.set val (pixel c)) (val + 1) n

/-- Lines 350-357: the elements `matrix[0]` to `matrix[5]`. -/
def read_ctm (jni : JNIEnv) (matrixarray : List jfloat) : Option fz_matrix :=
  if jni.GetPrimitiveArrayCritical "matrixarray" = false then none else
  matrixarray[0]?.bind fun a =>
  matrixarray[1]?.bind fun b =>
  matrixarray[2]?.bind fun c =>
  matrixarray[3]?.bind fun d =>
  matrixarray[4]?.bind fun e =>
  matrixarray[5]?.bind fun f =>
  some ⟨a, b, c, d, e, f⟩

/-- Lines 361-366: the elements `viewboxarr[0]` to `viewboxarr[3]`. -/
def read_viewbox (jni : JNIEnv) (viewboxarray : List Int) : Option fz_irect :=
  if jni.GetPrimitiveArrayCritical "viewboxarray" = false then none else
  viewboxarray[0]?.bind fun x0 =>
  viewboxarray[1]?.bind fun y0 =>
  viewboxarray[2]?.bind fun x1 =>
  viewboxarray[3]?.bind fun y1 =>
  some ⟨x0, y0, x1, y1⟩

/-- Line 372, `GetPrimitiveArrayCritical` on the named array: the words the
pointer it returns gives access to, `none` when it returns `NULL`. -/
def pin (jni : JNIEnv) (array : String) (a : List Nat) : Option (List Nat) :=
  if jni.GetPrimitiveArrayCritical array = true then some a else none

/-- The words behind a buffer pointer once a library call has left `after`
there; behind `NULL` there is no word. -/
def behind (buffer : Option (List Nat)) (after : List Nat) : List Nat :=
  match buffer with
  | some _ => after
  | none => []

/-- Line 394, `ReleasePrimitiveArrayCritical` with mode `0`: the Java array `a`
afterwards, given the pointer obtained for it and the words now behind it. -/
def unpin (a : List Nat) (buffer : Option (List Nat)) (words : List Nat) : List Nat :=
  match buffer with
  | some _ => words
  | none => a

/-- The state after lines 374-378. -/
structure Rendered where
  error : fz_error
  pixmap : fz_pixmap
  /-- The words behind `buffer` as the library left them (none behind `NULL`). -/
  buffer : List Nat
  trace : List Call

/-- Lines 374-378: create the pixmap over `buffer` (`none` when it is `NULL`)
and, if that gave no error, render into it; `none` when a handle that is
dereferenced is dangling. -/
def render (lib : Fitz) (h : Heap) (doc page : Ptr) (ctm : fz_matrix) (viewbox : fz_irect)
    (buffer : Option (List Nat)) : Option Rendered :=
  let np := lib.fz_newpixmapwithbufferandrect buffer viewbox 4
  let error := np.1
  let t : List Call := [Call.fz_newpixmapwithbufferandrect viewbox 4 error]
  if error = 0 then
    (h.docs doc).bind fun d =>
    d.rast.bind fun rast =>
    (h.pages page).bind fun p =>
    p.page.bind fun pagep =>
    (h.pdf_pages pagep).bind fun pdfpage =>
    let rt := lib.fz_rendertreetopixmap np.2.1 rast pdfpage.tree ctm viewbox 1
      (buffer.map fun _ => np.2.2)
    some
      { error := rt.1
        pixmap := rt.2.1
        buffer := behind buffer rt.2.2
        trace := t ++ [Call.fz_rendertreetopixmap rast pdfpage.tree ctm viewbox 1 rt.1] }
  else
    some { error := error, pixmap := np.2.1, buffer := behind buffer np.2.2, trace := t }

/-- Lines 380-392: the byte order pass; the words behind the buffer afterwards
and the calls made.  `none` when `w * h` overflows or the loop leaves the
buffer. -/
def convert (r : Rendered) : Option (List Nat × List Call) :=
  if r.error = 0 then
    (int_mul r.pixmap.w r.pixmap.h).bind fun length =>
    (pixel_loop r.buffer 0 length.toNat).bind fun col =>
    some (col, [Call.DEBUG "Converting image buffer pixel order"])
  else
    some (r.buffer, [])

/-- What `nativeCreateView` leaves behind. -/
structure ViewResult where
  trace : List Call
  /-- The Java array `bufferarray` at return. -/
  buffer : List Nat
  deriving DecidableEq, Repr

/-- Entry point `Java_de_hilses_droidreader_PdfView_nativeCreateView`; `none`
when `matrixarray` or `viewboxarray` cannot be pinned or is too short for the
elements read, when a handle that is dereferenced is dangling, or when the byte
order pass overflows `w * h` or leaves the buffer.  The pointer obtained for
`bufferarray` is neither tested nor dereferenced by the binding before the
pass: when it is `NULL` the library is called with it all the same. -/
def nativeCreateView (jni : JNIEnv) (lib : Fitz) (h : Heap) (dochandle pagehandle : Ptr)
    (viewboxarray : List Int) (matrixarray : List jfloat) (bufferarray : List Nat) :
    Option ViewResult :=
  let doc := dochandle
  let page := pagehandle
  /- initialize parameter arrays for MuPDF -/
  (read_ctm jni matrixarray).bind fun ctm =>
  (read_viewbox jni viewboxarray).bind fun viewbox =>
  let t0 : List Call :=
    [Call.DEBUG "PdfView(%p).nativeCreateView(%p, %p)",
     Call.GetPrimitiveArrayCritical "matrixarray",
     Call.ReleasePrimitiveArrayCritical "matrixarray",
     Call.DEBUG "Matrix: %f %f %f %f %f %f",
     Call.GetPrimitiveArrayCritical "viewboxarray",
     Call.ReleasePrimitiveArrayCritical "viewboxarray",
     Call.DEBUG "Viewbox: %d %d %d %d",
     Call.DEBUG "doing the rendering...",
     Call.GetPrimitiveArrayCritical "bufferarray"]
  /- do the rendering -/
  let buffer := pin jni "bufferarray" bufferarray
  (render lib h doc page ctm viewbox buffer).bind fun r =>
  (convert r).bind fun c =>
  some
    { trace := t0 ++ r.trace ++ c.2 ++
        [Call.ReleasePrimitiveArrayCritical "bufferarray", Call.fz_droppixmapwithoutbuffer] ++
        (if r.error ≠ 0 then
          [Call.DEBUG "error!"] ++ throw_exception jni EXC_PAGERENDER "error rendering page"
        else []) ++
        [Call.DEBUG "PdfView.nativeCreateView() done"]
      buffer := unpin bufferarray buffer c.1 }

/-! ## Reading a trace -/

/-- The arguments of a call of `throw_exception`. -/
def Call.asThrowCall : Call → Option (String × String)
  | Call.throw_exception c m => some (c, m)
  | _ => none

/-- The calls of `throw_exception` in a trace: class argument and message. -/
def throwCalls (t : List Call) : List (String × String) := t.filterMap Call.asThrowCall

/-- The arguments of a call of `ThrowNew`. -/
def Call.asThrowNew : Call → Option (Ptr × String)
  | Call.ThrowNew c m => some (c, m)
  | _ => none

/-- The exceptions raised with `ThrowNew` in a trace: class and message. -/
def thrown (t : List Call) : List (Ptr × String) := t.filterMap Call.asThrowNew

/-- A native resource held by a document handle. -/
inductive Resource where
  | document (p : Ptr)
  | renderer (p : Ptr)
  | xref (p : Ptr)
  | outline (p : Ptr)
  | store (p : Ptr)
  deriving DecidableEq, Repr

/-- The resource a call acquires: `fz_malloc`, `fz_newrenderer` without error,
`pdf_newxref`, `pdf_loadoutline`; a `NULL` result acquires nothing. -/
def Call.acquires : Call → Option Resource
  | Call.fz_malloc p => if p ≠ NULL then some (Resource.document p) else none
  | Call.fz_newrenderer _ e p => if e = 0 then some (Resource.renderer p) else none
  | Call.pdf_newxref p => some (Resource.xref p)
  | Call.pdf_loadoutline _ p => if p ≠ NULL then some (Resource.outline p) else none
  | _ => none

/-- The resource a call releases: `fz_free`, `fz_droprenderer`, `pdf_closexref`,
`pdf_dropoutline`, `pdf_dropstore`. -/
def Call.releases : Call → Option Resource
  | Call.fz_free p => some (Resource.document p)
  | Call.fz_droprenderer p => some (Resource.renderer p)
  | Call.pdf_closexref p => some (Resource.xref p)
  | Call.pdf_dropoutline p => some (Resource.outline p)
  | Call.pdf_dropstore p => some (Resource.store p)
  | _ => none

/-- The resources acquired in a trace, in order. -/
def acquired (t : List Call) : List Resource := t.filterMap Call.acquires

/-- The resources released in a trace, in order. -/
def released (t : List Call) : List Resource := t.filterMap Call.releases

/-- Calls that read or set document metadata: the lookups of `Root`, `Info` and
`Title`, the outline, the page count, and the accesses to the fields of
`this`. -/
def Call.isMetadata : Call → Bool
  | Call.fz_dictgets _ _ _ => true
  | Call.fz_resolveindirect _ _ => true
  | Call.fz_keepobj _ => true
  | Call.pdf_loadoutline _ _ => true
  | Call.pdf_toutf8 _ => true
  | Call.pdf_getpagecount _ _ => true
  | Call.GetObjectClass => true
  | Call.GetFieldID _ _ _ => true
  | Call.NewStringUTF _ => true
  | Call.SetObjectField _ _ => true
  | Call.SetIntField _ _ => true
  | _ => false

/-- Whether a resource is the store of an xref. -/
def Resource.isStore : Resource → Bool
  | Resource.store _ => true
  | _ => false

/-- Whether a call is `fz_newpixmapwithbufferandrect` or `fz_rendertreetopixmap`
returning a non-zero error code. -/
def Call.isRenderError : Call → Bool
  | Call.fz_newpixmapwithbufferandrect _ _ e => decide (e ≠ 0)
  | Call.fz_rendertreetopixmap _ _ _ _ _ e => decide (e ≠ 0)
  | _ => false

/-- Whether a call is `fz_rendertreetopixmap`. -/
def Call.isRenderTree : Call → Bool
  | Call.fz_rendertreetopixmap _ _ _ _ _ _ => true
  | _ => false

/-- Whether a call is `fz_newpixmapwithbufferandrect` returning no error. -/
def Call.isPixmapCreated : Call → Bool
  | Call.fz_newpixmapwithbufferandrect _ _ e => decide (e = 0)
  | _ => false

/-- Whether a call is `pdf_authenticatepassword`. -/
def Call.isAuthenticate : Call → Bool
  | Call.pdf_authenticatepassword _ _ _ => true
  | _ => false

/-- The exceptions a list of `throw_exception` calls raises: a call whose class
is not found raises nothing. -/
def raisedBy (jni : JNIEnv) (calls : List (String × String)) : List (Ptr × String) :=
  calls.filterMap fun cm =>
    if jni.FindClass cm.1 = NULL then none else some (jni.FindClass cm.1, cm.2)

/-- A trace in which `ThrowNew` is called by `throw_exception` only. -/
def Faithful (jni : JNIEnv) (t : List Call) : Prop :=
  thrown t = raisedBy jni (throwCalls t)

/-! ## Sample environments -/

/-- A Java runtime in which every class and every field is found and every
array can be pinned. -/
def sampleEnv : JNIEnv :=
  { FindClass := fun _ => 7
    GetFieldID := fun _ _ => 9
    GetPrimitiveArrayCritical := fun _ => true }

/-- A Java object whose fields are all unset. -/
def sampleThis : JObject :=
  { intField := fun _ => 0
    objectField := fun _ => none }

/-- A page of 612 by 792 units (as bit patterns of `float`), rotated by 90. -/
def samplePage : pdf_page :=
  { mediabox := ⟨0, 0, 0x44190000, 0x44460000⟩
    rotate := 90
    tree := 40 }

/-- A library in which every call succeeds, on an unencrypted document of 12
pages with an outline; rendering leaves the word `0x12345678` in every pixel,
and no pixmap is created over a `NULL` buffer. -/
def sampleLib : Fitz :=
  { fz_malloc := 100
    fz_newrenderer := fun _ => (0, 101)
    pdf_newxref := 102
    pdf_loadxref := fun _ _ => 0
    pdf_repairxref := fun _ _ => 0
    pdf_decryptxref := fun _ => 0
    pdf_needspassword := fun _ => 0
    pdf_authenticatepassword := fun _ p => if p = "secret" then 0 else -1
    trailer := fun _ => 103
    fz_dictgets := fun _ key => if key = "Root" then 104 else 0
    fz_resolveindirect := fun o => o
    pdf_loadoutline := fun _ => 105
    pdf_toutf8 := fun _ => "title"
    pdf_getpagecount := fun _ => 12
    pdf_getpageobject := fun _ _ => 106
    pdf_loadpage := fun _ _ => (0, 107, samplePage)
    fz_newpixmapwithbufferandrect := fun buf _ _ =>
      match buf with
      | some words => (0, ⟨2, 1⟩, words)
      | none => (-1, ⟨0, 0⟩, [])
    fz_rendertreetopixmap := fun pm _ _ _ _ _ buf =>
      (0, pm, (buf.getD []).map fun _ => 0x12345678) }

/-- The same library on a document that asks for a password. -/
def encryptedLib : Fitz :=
  { sampleLib with pdf_needspassword := fun _ => 1 }

/-- The same library when the renderer cannot be created. -/
def noRendererLib : Fitz :=
  { sampleLib with fz_newrenderer := fun _ => (-1, 0) }

/-- The same library when it allocates a page struct. -/
def pageLib : Fitz :=
  { sampleLib with fz_malloc := 110 }

/-- The same library when the page cannot be loaded. -/
def noPageLib : Fitz :=
  { pageLib with pdf_loadpage := fun _ _ => (-1, 0, samplePage) }

/-- Native memory after the sample document and one of its pages were opened:
the document struct is the one `nativeOpen` left at handle `100`, page loading
has given its xref a store, and handle `110` is a page struct. -/
def sampleHeap : Heap :=
  { docs := fun p =>
      if p = 100 then some (nativeOpen sampleEnv sampleLib sampleThis 0 "a.pdf" "").doc else none
    xref_store := fun p => if p = 102 then some 108 else none
    pages := fun p => if p = 110 then some ⟨some 107⟩ else none
    pdf_pages := fun p => if p = 107 then some samplePage else none }

/-- The state after lines 374-378 when the sample library renders the sample
page into a buffer of three words. -/
def sampleRendered : Rendered :=
  { error := 0
    pixmap := ⟨2, 1⟩
    buffer := [0x12345678, 0x12345678, 0x12345678]
    trace := [Call.fz_newpixmapwithbufferandrect ⟨0, 0, 2, 1⟩ 4 0,
      Call.fz_rendertreetopixmap 101 40 ⟨1, 0, 0, 1, 0, 0⟩ ⟨0, 0, 2, 1⟩ 1 0] }

/-- The same library when rendering fails and leaves the buffer alone. -/
def noRenderLib : Fitz :=
  { sampleLib with fz_rendertreetopixmap := fun pm _ _ _ _ _ buf => (-1, pm, buf.getD []) }

/-- The state after lines 374-378 when that library fails to render into the
buffer `[5, 6, 7]`. -/
def sampleFailed : Rendered :=
  { error := -1
    pixmap := ⟨2, 1⟩
    buffer := [5, 6, 7]
    trace := [Call.fz_newpixmapwithbufferandrect ⟨0, 0, 2, 1⟩ 4 0,
      Call.fz_rendertreetopixmap 101 40 ⟨1, 0, 0, 1, 0, 0⟩ ⟨0, 0, 2, 1⟩ 1 (-1)] }

/-- A Java runtime that cannot pin `bufferarray`. -/
def unpinnedEnv : JNIEnv :=
  { sampleEnv with GetPrimitiveArrayCritical := fun array => array != "bufferarray" }

/-- The state after lines 374-378 when the sample library is given a `NULL`
buffer. -/
def sampleUnpinned : Rendered :=
  { error := -1
    pixmap := ⟨0, 0⟩
    buffer := []
    trace := [Call.fz_newpixmapwithbufferandrect ⟨0, 0, 2, 1⟩ 4 (-1)] }

/-! ## Theorems -/

/-! ### The pixel transform -/

theorem and_byte_mask (x k : Nat) :
    x &&& ((2 ^ 8 - 1) <<< k) = (x >>> k % 2 ^ 8) <<< k := by
  apply Nat.eq_of_testBit_eq
  intro i
  simp only [Nat.testBit_and, Nat.testBit_shiftLeft, Nat.testBit_two_pow_sub_one,
    Nat.testBit_mod_two_pow, Nat.testBit_shiftRight]
  by_cases h : k ≤ i
  · have : k + (i - k) = i := by omega
    simp [h, this, Bool.and_comm]
  · simp [h]

theorem pixel_eq (x : Nat) :
    pixel x = x / 2 ^ 24 % 256 + 2 ^ 8 * (x / 2 ^ 16 % 256) + 2 ^ 16 * (x / 2 ^ 8 % 256) := by
  have m3 : (0xFF000000 : Nat) = (2 ^ 8 - 1) <<< 24 := by decide
  have m2 : (0x00FF0000 : Nat) = (2 ^ 8 - 1) <<< 16 := by decide
  have m1 : (0x0000FF00 : Nat) = (2 ^ 8 - 1) <<< 8 := by decide
  unfold pixel
  rw [m3, m2, m1, and_byte_mask, and_byte_mask, and_byte_mask]
  simp only [Nat.shiftLeft_eq, Nat.shiftRight_eq_div_pow]
  have h3 : x / 2 ^ 24 % 2 ^ 8 < 2 ^ 8 := Nat.mod_lt _ (by norm_num)
  have h2 : x / 2 ^ 16 % 2 ^ 8 < 2 ^ 8 := Nat.mod_lt _ (by norm_num)
  have h1 : x / 2 ^ 8 % 2 ^ 8 < 2 ^ 8 := Nat.mod_lt _ (by norm_num)
  generalize x / 2 ^ 24 % 2 ^ 8 = a at *
  generalize x / 2 ^ 16 % 2 ^ 8 = b at *
  generalize x / 2 ^ 8 % 2 ^ 8 = c at *
  have e1 : a * 2 ^ 24 / 2 ^ 24 = a := by omega
  have e2 : b * 2 ^ 16 / 2 ^ 8 = b * 2 ^ 8 := by omega
  have e3 : c * 2 ^ 8 * 2 ^ 8 % 2 ^ 32 = c * 2 ^ 16 := by omega
  rw [e1, e2, e3]
  have o1 : a ||| b * 2 ^ 8 = 2 ^ 8 * b + a := by
    rw [Nat.or_comm, Nat.mul_comm]; exact (Nat.mul_add_lt_is_or h3 b).symm
  have o2 : (2 ^ 8 * b + a) ||| c * 2 ^ 16 = 2 ^ 16 * c + (2 ^ 8 * b + a) := by
    have hlt : 2 ^ 8 * b + a < 2 ^ 16 := by omega
    rw [Nat.or_comm, Nat.mul_comm]; exact (Nat.mul_add_lt_is_or hlt c).symm
  rw [o1, o2]
  omega

theorem pixel_bytes (b3 b2 b1 b0 : Nat) (h3 : b3 < 256) (h2 : b2 < 256) (h1 : b1 < 256)
    (h0 : b0 < 256) :
    pixel (2 ^ 24 * b3 + 2 ^ 16 * b2 + 2 ^ 8 * b1 + b0) = b3 + 2 ^ 8 * b2 + 2 ^ 16 * b1 := by
  rw [pixel_eq]
  omega

theorem byteAt_word (b3 b2 b1 b0 : Nat) (h3 : b3 < 256) (h2 : b2 < 256) (h1 : b1 < 256)
    (h0 : b0 < 256) :
    byteAt (2 ^ 24 * b3 + 2 ^ 16 * b2 + 2 ^ 8 * b1 + b0) 0 = b0 ∧
    byteAt (2 ^ 24 * b3 + 2 ^ 16 * b2 + 2 ^ 8 * b1 + b0) 1 = b1 ∧
    byteAt (2 ^ 24 * b3 + 2 ^ 16 * b2 + 2 ^ 8 * b1 + b0) 2 = b2 ∧
    byteAt (2 ^ 24 * b3 + 2 ^ 16 * b2 + 2 ^ 8 * b1 + b0) 3 = b3 := by
  simp only [byteAt, Nat.reducePow, Nat.reduceMul]
  omega

/-! ### Reading traces -/

@[simp] theorem throwCalls_nil : throwCalls [] = [] := rfl

@[simp] theorem throwCalls_append (a b : List Call) :
    throwCalls (a ++ b) = throwCalls a ++ throwCalls b := by
  simp [throwCalls]

theorem throwCalls_cons (c : Call) (t : List Call) :
    throwCalls (c :: t) = (Call.asThrowCall c).toList ++ throwCalls t := by
  unfold throwCalls
  rw [List.filterMap_cons]
  cases Call.asThrowCall c <;> rfl

@[simp] theorem thrown_nil : thrown [] = [] := rfl

@[simp] theorem thrown_append (a b : List Call) : thrown (a ++ b) = thrown a ++ thrown b := by
  simp [thrown]

theorem thrown_cons (c : Call) (t : List Call) :
    thrown (c :: t) = (Call.asThrowNew c).toList ++ thrown t := by
  unfold thrown
  rw [List.filterMap_cons]
  cases Call.asThrowNew c <;> rfl

@[simp] theorem released_nil : released [] = [] := rfl

@[simp] theorem released_append (a b : List Call) :
    released (a ++ b) = released a ++ released b := by
  simp [released]

theorem released_cons (c : Call) (t : List Call) :
    released (c :: t) = (Call.releases c).toList ++ released t := by
  unfold released
  rw [List.filterMap_cons]
  cases Call.releases c <;> rfl

@[simp] theorem acquired_nil : acquired [] = [] := rfl

@[simp] theorem acquired_append (a b : List Call) :
    acquired (a ++ b) = acquired a ++ acquired b := by
  simp [acquired]

theorem acquired_cons (c : Call) (t : List Call) :
    acquired (c :: t) = (Call.acquires c).toList ++ acquired t := by
  unfold acquired
  rw [List.filterMap_cons]
  cases Call.acquires c <;> rfl

/-- What `throw_exception` raises: nothing when the class is not found. -/
theorem thrown_throw_exception (jni : JNIEnv) (c m : String) :
    thrown (throw_exception jni c m) =
      if jni.FindClass c = NULL then [] else [(jni.FindClass c, m)] := by
  unfold throw_exception
  by_cases h : jni.FindClass c = NULL <;> simp [h, thrown_cons, Call.asThrowNew]

@[simp] theorem throwCalls_throw_exception (jni : JNIEnv) (c m : String) :
    throwCalls (throw_exception jni c m) = [(c, m)] := by
  unfold throw_exception
  by_cases h : jni.FindClass c = NULL <;> simp [h, throwCalls_cons, Call.asThrowCall]

@[simp] theorem released_throw_exception (jni : JNIEnv) (c m : String) :
    released (throw_exception jni c m) = [] := by
  unfold throw_exception
  by_cases h : jni.FindClass c = NULL <;> simp [h, released_cons, Call.releases]

theorem Faithful.nil (jni : JNIEnv) : Faithful jni [] := rfl

theorem Faithful.append {jni : JNIEnv} {a b : List Call} (ha : Faithful jni a)
    (hb : Faithful jni b) : Faithful jni (a ++ b) := by
  unfold Faithful at *
  simp [ha, hb, raisedBy]

theorem Faithful.throw_exception (jni : JNIEnv) (c m : String) :
    Faithful jni (throw_exception jni c m) := by
  unfold Faithful
  rw [thrown_throw_exception, throwCalls_throw_exception]
  by_cases h : jni.FindClass c = NULL <;> simp [h, raisedBy]

theorem Faithful.plain {jni : JNIEnv} {t : List Call} (h1 : throwCalls t = [])
    (h2 : thrown t = []) : Faithful jni t := by
  unfold Faithful
  rw [h1, h2]; rfl

/-! ### `nativeOpen`, stage by stage -/

@[simp] theorem throwCalls_title (jni : JNIEnv) (lib : Fitz) (this : JObject) (info : Ptr) :
    throwCalls (nativeOpen_title jni lib this info).1 = [] := by
  simp only [nativeOpen_title]
  split_ifs <;> simp [throwCalls_cons, Call.asThrowCall]

@[simp] theorem thrown_title (jni : JNIEnv) (lib : Fitz) (this : JObject) (info : Ptr) :
    thrown (nativeOpen_title jni lib this info).1 = [] := by
  simp only [nativeOpen_title]
  split_ifs <;> simp [thrown_cons, Call.asThrowNew]

@[simp] theorem released_title (jni : JNIEnv) (lib : Fitz) (this : JObject) (info : Ptr) :
    released (nativeOpen_title jni lib this info).1 = [] := by
  simp only [nativeOpen_title]
  split_ifs <;> simp [released_cons, Call.releases]

@[simp] theorem acquired_title (jni : JNIEnv) (lib : Fitz) (this : JObject) (info : Ptr) :
    acquired (nativeOpen_title jni lib this info).1 = [] := by
  simp only [nativeOpen_title]
  split_ifs <;> simp [acquired_cons, Call.acquires]

theorem throwCalls_metadata (jni : JNIEnv) (lib : Fitz) (this : JObject) (fname pwd : String)
    (doc xref rast : Ptr) (t : List Call) :
    throwCalls (nativeOpen_metadata jni lib this fname pwd doc xref rast t).trace =
      throwCalls t ++
        (if lib.fz_resolveindirect (lib.fz_dictgets (lib.trailer xref) "Root") = NULL then
          [(EXC, "PDF syntax: missing \"Root\" object")]
        else if jni.GetFieldID "pagecount" "I" = NULL then
          [(EXC, "cannot access instance fields!")]
        else []) := by
  simp only [nativeOpen_metadata, nativeOpen_cleanup]
  split_ifs <;> simp_all [throwCalls_cons, Call.asThrowCall]

theorem throwCalls_decrypt (jni : JNIEnv) (lib : Fitz) (this : JObject) (fname pwd : String)
    (doc xref rast : Ptr) (t : List Call) :
    throwCalls (nativeOpen_decrypt jni lib this fname pwd doc xref rast t).trace =
      throwCalls t ++
        (if lib.pdf_decryptxref xref ≠ 0 then [(EXC, "Cannot decrypt XRef table")]
        else if lib.pdf_needspassword xref ≠ 0 ∧ strlen pwd = 0 then
          [(EXC, "PDF needs a password!")]
        else if lib.pdf_needspassword xref ≠ 0 ∧ lib.pdf_authenticatepassword xref pwd ≠ 0 then
          [(EXC, "Wrong password given")]
        else if lib.fz_resolveindirect (lib.fz_dictgets (lib.trailer xref) "Root") = NULL then
          [(EXC, "PDF syntax: missing \"Root\" object")]
        else if jni.GetFieldID "pagecount" "I" = NULL then
          [(EXC, "cannot access instance fields!")]
        else []) := by
  simp only [nativeOpen_decrypt, nativeOpen_cleanup, apply_ite OpenResult.trace, throwCalls_metadata,
    apply_ite throwCalls]
  split_ifs <;>
    simp_all [throwCalls_cons, Call.asThrowCall, EXC,
      EXC_CANNOT_DECRYPTXREF, EXC_NEED_PASSWORD, EXC_WRONG_PASSWORD]

theorem throwCalls_nativeOpen (jni : JNIEnv) (lib : Fitz) (this : JObject) (fitzmemory : Int)
    (fname pwd : String) :
    throwCalls (nativeOpen jni lib this fitzmemory fname pwd).trace =
      if lib.fz_malloc = NULL then [(EXC, "Out of Memory")]
      else if (lib.fz_newrenderer fitzmemory).1 ≠ 0 then [(EXC, "Cannot create new renderer")]
      else if lib.pdf_loadxref lib.pdf_newxref fname ≠ 0 ∧
          lib.pdf_repairxref lib.pdf_newxref fname ≠ 0 then
        [(EXC, "PDF file is corrupted")]
      else if lib.pdf_decryptxref lib.pdf_newxref ≠ 0 then [(EXC, "Cannot decrypt XRef table")]
      else if lib.pdf_needspassword lib.pdf_newxref ≠ 0 ∧ strlen pwd = 0 then
        [(EXC, "PDF needs a password!")]
      else if lib.pdf_needspassword lib.pdf_newxref ≠ 0 ∧
          lib.pdf_authenticatepassword lib.pdf_newxref pwd ≠ 0 then
        [(EXC, "Wrong password given")]
      else if lib.fz_resolveindirect
          (lib.fz_dictgets (lib.trailer lib.pdf_newxref) "Root") = NULL then
        [(EXC, "PDF syntax: missing \"Root\" object")]
      else if jni.GetFieldID "pagecount" "I" = NULL then
        [(EXC, "cannot access instance fields!")]
      else [] := by
  by_cases h1 : lib.fz_malloc = NULL
  · simp [nativeOpen, nativeOpen_cleanup, h1, throwCalls_cons, Call.asThrowCall]
  by_cases h2 : (lib.fz_newrenderer fitzmemory).1 = 0
  swap
  · simp [nativeOpen, nativeOpen_cleanup, h1, h2, throwCalls_cons, Call.asThrowCall]
  by_cases h3 : lib.pdf_loadxref lib.pdf_newxref fname = 0
  · simp [nativeOpen, h1, h2, h3, throwCalls_decrypt, throwCalls_cons, Call.asThrowCall]
  by_cases h4 : lib.pdf_repairxref lib.pdf_newxref fname = 0
  · simp [nativeOpen, h1, h2, h3, h4, throwCalls_decrypt, throwCalls_cons, Call.asThrowCall]
  · simp [nativeOpen, nativeOpen_cleanup, h1, h2, h3, h4, throwCalls_cons, Call.asThrowCall,
      EXC, EXC_CANNOT_REPAIR]

@[simp] theorem raisedBy_nil (jni : JNIEnv) : raisedBy jni [] = [] := rfl

@[simp] theorem raisedBy_append (jni : JNIEnv) (a b : List (String × String)) :
    raisedBy jni (a ++ b) = raisedBy jni a ++ raisedBy jni b := by
  simp [raisedBy]

theorem raisedBy_singleton (jni : JNIEnv) (c m : String) :
    raisedBy jni [(c, m)] = if jni.FindClass c = NULL then [] else [(jni.FindClass c, m)] := by
  by_cases h : jni.FindClass c = NULL <;> simp [raisedBy, h]

theorem Faithful.title (jni : JNIEnv) (lib : Fitz) (this : JObject) (info : Ptr) :
    Faithful jni (nativeOpen_title jni lib this info).1 :=
  Faithful.plain (throwCalls_title jni lib this info) (thrown_title jni lib this info)

theorem Faithful.metadata {jni : JNIEnv} (lib : Fitz) (this : JObject) (fname pwd : String)
    (doc xref rast : Ptr) {t : List Call} (ht : Faithful jni t) :
    Faithful jni (nativeOpen_metadata jni lib this fname pwd doc xref rast t).trace := by
  unfold Faithful at *
  simp only [nativeOpen_metadata, nativeOpen_cleanup]
  split_ifs <;>
    simp [ht, throwCalls_cons, thrown_cons, Call.asThrowCall, Call.asThrowNew,
      thrown_throw_exception, raisedBy_singleton]

theorem Faithful.decrypt {jni : JNIEnv} (lib : Fitz) (this : JObject) (fname pwd : String)
    (doc xref rast : Ptr) {t : List Call} (ht : Faithful jni t) :
    Faithful jni (nativeOpen_decrypt jni lib this fname pwd doc xref rast t).trace := by
  simp only [nativeOpen_decrypt, nativeOpen_cleanup]
  split_ifs
  all_goals first
    | (apply Faithful.metadata
       unfold Faithful at *
       simp [ht, throwCalls_cons, thrown_cons, Call.asThrowCall, Call.asThrowNew])
    | (unfold Faithful at *
       simp [ht, throwCalls_cons, thrown_cons, Call.asThrowCall, Call.asThrowNew,
        thrown_throw_exception, raisedBy_singleton])

theorem Faithful.nativeOpen (jni : JNIEnv) (lib : Fitz) (this : JObject) (fitzmemory : Int)
    (fname pwd : String) :
    Faithful jni (nativeOpen jni lib this fitzmemory fname pwd).trace := by
  simp only [PdfRender.nativeOpen, nativeOpen_cleanup]
  split_ifs
  all_goals first
    | (apply Faithful.decrypt
       unfold Faithful
       simp [throwCalls_cons, thrown_cons, Call.asThrowCall, Call.asThrowNew])
    | (unfold Faithful
       simp [throwCalls_cons, thrown_cons, Call.asThrowCall, Call.asThrowNew,
        thrown_throw_exception, raisedBy_singleton])

theorem released_metadata (jni : JNIEnv) (lib : Fitz) (this : JObject) (fname pwd : String)
    (doc xref rast : Ptr) (t : List Call) :
    released (nativeOpen_metadata jni lib this fname pwd doc xref rast t).trace = released t := by
  simp only [nativeOpen_metadata, nativeOpen_cleanup]
  split_ifs <;> simp [released_cons, Call.releases]

theorem released_decrypt (jni : JNIEnv) (lib : Fitz) (this : JObject) (fname pwd : String)
    (doc xref rast : Ptr) (t : List Call) :
    released (nativeOpen_decrypt jni lib this fname pwd doc xref rast t).trace = released t := by
  simp only [nativeOpen_decrypt, nativeOpen_cleanup]
  split_ifs <;> simp [released_cons, Call.releases, released_metadata]

theorem released_nativeOpen (jni : JNIEnv) (lib : Fitz) (this : JObject) (fitzmemory : Int)
    (fname pwd : String) :
    released (nativeOpen jni lib this fitzmemory fname pwd).trace = [] := by
  simp only [nativeOpen, nativeOpen_cleanup]
  split_ifs <;> simp [released_cons, Call.releases, released_decrypt]

theorem ret_metadata (jni : JNIEnv) (lib : Fitz) (this : JObject) (fname pwd : String)
    (doc xref rast : Ptr) (t : List Call) :
    (nativeOpen_metadata jni lib this fname pwd doc xref rast t).ret = doc := by
  simp only [nativeOpen_metadata, nativeOpen_cleanup]
  split_ifs <;> rfl

theorem ret_decrypt (jni : JNIEnv) (lib : Fitz) (this : JObject) (fname pwd : String)
    (doc xref rast : Ptr) (t : List Call) :
    (nativeOpen_decrypt jni lib this fname pwd doc xref rast t).ret = doc := by
  simp only [nativeOpen_decrypt, nativeOpen_cleanup]
  split_ifs <;> first | rfl | exact ret_metadata _ _ _ _ _ _ _ _ _

theorem ret_nativeOpen (jni : JNIEnv) (lib : Fitz) (this : JObject) (fitzmemory : Int)
    (fname pwd : String) :
    (nativeOpen jni lib this fitzmemory fname pwd).ret = lib.fz_malloc := by
  simp only [nativeOpen, nativeOpen_cleanup]
  split_ifs <;> first | rfl | exact ret_decrypt _ _ _ _ _ _ _ _ _

/-- C8: `nativeOpen` always returns the pointer `fz_malloc` gave it (so `0` only
when the allocation failed) and never calls a release function; each failure
calls `throw_exception` exactly once, with the message of its cause; and there
is a failed open whose return value is not `0`. -/
theorem nativeOpen_no_cleanup :
    (∀ (jni : JNIEnv) (lib : Fitz) (this : JObject) (fitzmemory : Int) (fname pwd : String),
      (nativeOpen jni lib this fitzmemory fname pwd).ret = lib.fz_malloc ∧
      ((nativeOpen jni lib this fitzmemory fname pwd).ret = NULL ↔ lib.fz_malloc = NULL) ∧
      released (nativeOpen jni lib this fitzmemory fname pwd).trace = [] ∧
      throwCalls (nativeOpen jni lib this fitzmemory fname pwd).trace =
        (if lib.fz_malloc = NULL then [(EXC, "Out of Memory")]
        else if (lib.fz_newrenderer fitzmemory).1 ≠ 0 then
          [(EXC, "Cannot create new renderer")]
        else if lib.pdf_loadxref lib.pdf_newxref fname ≠ 0 ∧
            lib.pdf_repairxref lib.pdf_newxref fname ≠ 0 then
          [(EXC, "PDF file is corrupted")]
        else if lib.pdf_decryptxref lib.pdf_newxref ≠ 0 then
          [(EXC, "Cannot decrypt XRef table")]
        else if lib.pdf_needspassword lib.pdf_newxref ≠ 0 ∧ strlen pwd = 0 then
          [(EXC, "PDF needs a password!")]
        else if lib.pdf_needspassword lib.pdf_newxref ≠ 0 ∧
            lib.pdf_authenticatepassword lib.pdf_newxref pwd ≠ 0 then
          [(EXC, "Wrong password given")]
        else if lib.fz_resolveindirect
            (lib.fz_dictgets (lib.trailer lib.pdf_newxref) "Root") = NULL then
          [(EXC, "PDF syntax: missing \"Root\" object")]
        else if jni.GetFieldID "pagecount" "I" = NULL then
          [(EXC, "cannot access instance fields!")]
        else []) ∧
      thrown (nativeOpen jni lib this fitzmemory fname pwd).trace =
        raisedBy jni (throwCalls (nativeOpen jni lib this fitzmemory fname pwd).trace)) ∧
    (nativeOpen sampleEnv noRendererLib sampleThis 0 "a.pdf" "").ret = 100 ∧
    thrown (nativeOpen sampleEnv noRendererLib sampleThis 0 "a.pdf" "").trace =
      [(7, "Cannot create new renderer")] := by
  refine ⟨?_, by decide, by decide⟩
  intro jni lib this fitzmemory fname pwd
  refine ⟨ret_nativeOpen _ _ _ _ _ _, ?_, released_nativeOpen _ _ _ _ _ _,
    throwCalls_nativeOpen _ _ _ _ _ _, Faithful.nativeOpen _ _ _ _ _ _⟩
  rw [ret_nativeOpen]

theorem strlen_eq_zero (s : String) : strlen s = 0 ↔ s = "" := by
  unfold strlen
  constructor
  · intro h
    rcases s with ⟨cs⟩
    cases cs with
    | nil => rfl
    | cons c cs =>
      simp [String.utf8ByteSize, String.utf8ByteSize.go] at h
      have := Char.utf8Size_pos c
      omega
  · rintro rfl; rfl

/-- When allocation, renderer creation and xref load or repair succeed,
`nativeOpen` goes on to line 158 having made no metadata or authentication
call and no `throw_exception` call. -/
theorem nativeOpen_eq_decrypt (jni : JNIEnv) (lib : Fitz) (this : JObject) (fitzmemory : Int)
    (fname pwd : String) (hm : lib.fz_malloc ≠ NULL) (hr : (lib.fz_newrenderer fitzmemory).1 = 0)
    (hl : lib.pdf_loadxref lib.pdf_newxref fname = 0 ∨
      lib.pdf_repairxref lib.pdf_newxref fname = 0) :
    ∃ t, nativeOpen jni lib this fitzmemory fname pwd =
        nativeOpen_decrypt jni lib this fname pwd lib.fz_malloc lib.pdf_newxref
          (lib.fz_newrenderer fitzmemory).2 t ∧
      t.filter Call.isMetadata = [] ∧ t.any Call.isAuthenticate = false ∧
      throwCalls t = [] ∧
      acquired t = [Resource.document lib.fz_malloc,
        Resource.renderer (lib.fz_newrenderer fitzmemory).2, Resource.xref lib.pdf_newxref] := by
  refine ⟨[Call.DEBUG "PdfDocument(%p).nativeOpen(%i, \"%p\", \"%p\")",
      Call.GetStringUTFChars fname, Call.GetStringUTFChars pwd, Call.fz_malloc lib.fz_malloc,
      Call.fz_newrenderer fitzmemory 0 (lib.fz_newrenderer fitzmemory).2,
      Call.pdf_newxref lib.pdf_newxref,
      Call.pdf_loadxref lib.pdf_newxref fname (lib.pdf_loadxref lib.pdf_newxref fname)] ++
      (if lib.pdf_loadxref lib.pdf_newxref fname ≠ 0 then
        [Call.fz_catch (lib.pdf_loadxref lib.pdf_newxref fname) "trying to repair",
         Call.INFO "Corrupted file '%s', trying to repair",
         Call.pdf_repairxref lib.pdf_newxref fname 0]
      else []), ?_, ?_, ?_, ?_, ?_⟩
  · by_cases h3 : lib.pdf_loadxref lib.pdf_newxref fname = 0
    · simp [nativeOpen, hm, hr, h3]
    · have h4 : lib.pdf_repairxref lib.pdf_newxref fname = 0 := by tauto
      simp [nativeOpen, hm, hr, h3, h4]
  all_goals
    by_cases h3 : lib.pdf_loadxref lib.pdf_newxref fname = 0 <;>
      simp [h3, Call.isMetadata, Call.isAuthenticate, throwCalls_cons, Call.asThrowCall,
        acquired_cons, Call.acquires, hm, hr]

/-- C3: on a document that needs a password (allocation, renderer creation,
xref load or repair and decryption having succeeded), `nativeOpen`
(a) with the empty password calls `throw_exception` once, with "PDF needs a
password!", and never calls `pdf_authenticatepassword`;
(b) with a non-empty password that `pdf_authenticatepassword` rejects calls
`throw_exception` once, with "Wrong password given";
in both cases it makes no metadata call, assigns neither `root` nor `info` nor
the outline and leaves `this` as it was;
(c) with a non-empty password that is accepted it throws neither of the two and
goes on to look up `Root` and assign `root`. -/
theorem nativeOpen_authenticates (jni : JNIEnv) (lib : Fitz) (this : JObject)
    (fitzmemory : Int) (fname pwd : String)
    (hm : lib.fz_malloc ≠ NULL) (hr : (lib.fz_newrenderer fitzmemory).1 = 0)
    (hl : lib.pdf_loadxref lib.pdf_newxref fname = 0 ∨
      lib.pdf_repairxref lib.pdf_newxref fname = 0)
    (hd : lib.pdf_decryptxref lib.pdf_newxref = 0)
    (hn : lib.pdf_needspassword lib.pdf_newxref ≠ 0) :
    let r := nativeOpen jni lib this fitzmemory fname pwd
    (pwd = "" →
      throwCalls r.trace = [("java/lang/Exception", "PDF needs a password!")] ∧
      thrown r.trace = raisedBy jni [("java/lang/Exception", "PDF needs a password!")] ∧
      r.trace.any Call.isAuthenticate = false ∧
      r.trace.filter Call.isMetadata = [] ∧
      r.root = none ∧ r.info = none ∧ r.doc.outline = none ∧ r.this = this) ∧
    (pwd ≠ "" → lib.pdf_authenticatepassword lib.pdf_newxref pwd ≠ 0 →
      throwCalls r.trace = [("java/lang/Exception", "Wrong password given")] ∧
      thrown r.trace = raisedBy jni [("java/lang/Exception", "Wrong password given")] ∧
      Call.pdf_authenticatepassword lib.pdf_newxref pwd
        (lib.pdf_authenticatepassword lib.pdf_newxref pwd) ∈ r.trace ∧
      r.trace.filter Call.isMetadata = [] ∧
      r.root = none ∧ r.info = none ∧ r.doc.outline = none ∧ r.this = this) ∧
    (pwd ≠ "" → lib.pdf_authenticatepassword lib.pdf_newxref pwd = 0 →
      (∀ cm ∈ throwCalls r.trace,
        cm.2 ≠ "PDF needs a password!" ∧ cm.2 ≠ "Wrong password given") ∧
      Call.pdf_authenticatepassword lib.pdf_newxref pwd 0 ∈ r.trace ∧
      Call.fz_dictgets (lib.trailer lib.pdf_newxref) "Root"
        (lib.fz_dictgets (lib.trailer lib.pdf_newxref) "Root") ∈ r.trace ∧
      r.root = some (lib.fz_resolveindirect
        (lib.fz_dictgets (lib.trailer lib.pdf_newxref) "Root"))) := by
  intro r
  have hf : thrown r.trace = raisedBy jni (throwCalls r.trace) := Faithful.nativeOpen _ _ _ _ _ _
  have htc := throwCalls_nativeOpen jni lib this fitzmemory fname pwd
  obtain ⟨t, ht, hmeta, hauth, -, -⟩ := nativeOpen_eq_decrypt jni lib this fitzmemory fname pwd hm hr hl
  have hl2 : ¬ (lib.pdf_loadxref lib.pdf_newxref fname ≠ 0 ∧
      lib.pdf_repairxref lib.pdf_newxref fname ≠ 0) := by tauto
  simp only [hm, hr, hd, hn, hl2, if_false, ne_eq, not_true_eq_false, not_false_eq_true,
    true_and, strlen_eq_zero] at htc
  refine ⟨?_, ?_, ?_⟩
  · intro hp
    have e : throwCalls r.trace = [("java/lang/Exception", "PDF needs a password!")] := by
      rw [htc, if_pos hp]; rfl
    refine ⟨e, by rw [hf, e], ?_⟩
    have hs : strlen pwd = 0 := (strlen_eq_zero pwd).2 hp
    simp only [r, ht]
    simp [nativeOpen_decrypt, nativeOpen_cleanup, hd, hn, hs, hmeta, hauth, Call.isMetadata,
      Call.isAuthenticate, throw_exception]
    split_ifs <;> simp [Call.isMetadata, Call.isAuthenticate]
  · intro hp ha
    have e : throwCalls r.trace = [("java/lang/Exception", "Wrong password given")] := by
      rw [htc, if_neg hp, if_pos ha]; rfl
    refine ⟨e, by rw [hf, e], ?_⟩
    have hs : strlen pwd ≠ 0 := fun h => hp ((strlen_eq_zero pwd).1 h)
    simp only [r, ht]
    simp [nativeOpen_decrypt, nativeOpen_cleanup, hd, hn, hs, ha, hmeta, Call.isMetadata,
      throw_exception]
    split_ifs <;> simp [Call.isMetadata]
  · intro hp ha
    refine ⟨?_, ?_⟩
    · intro cm hcm
      rw [htc, if_neg hp, if_neg (by simp [ha])] at hcm
      split_ifs at hcm <;> simp at hcm <;> subst hcm <;> decide
    have hs : strlen pwd ≠ 0 := fun h => hp ((strlen_eq_zero pwd).1 h)
    simp only [r, ht]
    simp only [nativeOpen_decrypt, nativeOpen_metadata, nativeOpen_cleanup, hd, hn, hs, ha, ne_eq,
      not_false_eq_true, not_true_eq_false, if_true, if_false]
    split_ifs <;> simp

/-- The three cases of C3 on the encrypted sample document: no password, a wrong
password, the right password. -/
theorem nativeOpen_authenticates_witness :
    (encryptedLib.fz_malloc ≠ NULL ∧ (encryptedLib.fz_newrenderer 0).1 = 0 ∧
      (encryptedLib.pdf_loadxref encryptedLib.pdf_newxref "a.pdf" = 0 ∨
        encryptedLib.pdf_repairxref encryptedLib.pdf_newxref "a.pdf" = 0) ∧
      encryptedLib.pdf_decryptxref encryptedLib.pdf_newxref = 0 ∧
      encryptedLib.pdf_needspassword encryptedLib.pdf_newxref ≠ 0) ∧
    throwCalls (nativeOpen sampleEnv encryptedLib sampleThis 0 "a.pdf" "").trace =
      [("java/lang/Exception", "PDF needs a password!")] ∧
    throwCalls (nativeOpen sampleEnv encryptedLib sampleThis 0 "a.pdf" "guess").trace =
      [("java/lang/Exception", "Wrong password given")] ∧
    (nativeOpen sampleEnv encryptedLib sampleThis 0 "a.pdf" "secret").root = some 104 :=
  ⟨by decide,
   ((nativeOpen_authenticates sampleEnv encryptedLib sampleThis 0 "a.pdf" ""
      (by decide) (by decide) (by decide) (by decide) (by decide)).1 rfl).1,
   ((nativeOpen_authenticates sampleEnv encryptedLib sampleThis 0 "a.pdf" "guess"
      (by decide) (by decide) (by decide) (by decide) (by decide)).2.1
      (by decide) (by decide)).1,
   ((nativeOpen_authenticates sampleEnv encryptedLib sampleThis 0 "a.pdf" "secret"
      (by decide) (by decide) (by decide) (by decide) (by decide)).2.2
      (by decide) (by decide)).2.2.2⟩

/-- An open that never calls `throw_exception` has allocated the document,
assigned its three fields, and acquired document, renderer, xref and (when it
is not `NULL`) outline, in this order. -/
theorem nativeOpen_success (jni : JNIEnv) (lib : Fitz) (this : JObject) (fitzmemory : Int)
    (fname pwd : String)
    (hs : throwCalls (nativeOpen jni lib this fitzmemory fname pwd).trace = []) :
    lib.fz_malloc ≠ NULL ∧
    (nativeOpen jni lib this fitzmemory fname pwd).doc =
      ⟨some lib.pdf_newxref, some (lib.pdf_loadoutline lib.pdf_newxref),
        some (lib.fz_newrenderer fitzmemory).2⟩ ∧
    acquired (nativeOpen jni lib this fitzmemory fname pwd).trace =
      [Resource.document lib.fz_malloc, Resource.renderer (lib.fz_newrenderer fitzmemory).2,
        Resource.xref lib.pdf_newxref] ++
      (if lib.pdf_loadoutline lib.pdf_newxref ≠ NULL then
        [Resource.outline (lib.pdf_loadoutline lib.pdf_newxref)] else []) := by
  rw [throwCalls_nativeOpen] at hs
  split_ifs at hs with h1 h2 h3 h4 h5 h6 h7 h8
  all_goals cases hs
  have hr : (lib.fz_newrenderer fitzmemory).1 = 0 := by simpa using h2
  have hl : lib.pdf_loadxref lib.pdf_newxref fname = 0 ∨
      lib.pdf_repairxref lib.pdf_newxref fname = 0 := by
    by_cases h : lib.pdf_loadxref lib.pdf_newxref fname = 0
    · exact Or.inl h
    · right
      by_contra h'
      exact h3 ⟨h, h'⟩
  have hd : lib.pdf_decryptxref lib.pdf_newxref = 0 := by simpa using h4
  obtain ⟨t, ht, -, -, -, hacq⟩ :=
    nativeOpen_eq_decrypt jni lib this fitzmemory fname pwd h1 hr hl
  refine ⟨h1, ?_, ?_⟩
  · rw [ht]
    by_cases hn : lib.pdf_needspassword lib.pdf_newxref = 0
    · simp [nativeOpen_decrypt, nativeOpen_metadata, nativeOpen_cleanup, hd, hn, h7, h8]
    · have hs' : strlen pwd ≠ 0 := fun h => h5 ⟨hn, h⟩
      have ha : lib.pdf_authenticatepassword lib.pdf_newxref pwd = 0 := by
        by_contra h'
        exact h6 ⟨hn, h'⟩
      simp [nativeOpen_decrypt, nativeOpen_metadata, nativeOpen_cleanup, hd, hn, hs', ha, h7, h8]
  · rw [ht]
    by_cases hn : lib.pdf_needspassword lib.pdf_newxref = 0
    · simp only [nativeOpen_decrypt, nativeOpen_metadata, nativeOpen_cleanup, hd, hn, h7, h8,
        ne_eq, not_false_eq_true, not_true_eq_false, if_true, if_false]
      split_ifs <;> simp_all [acquired_cons, Call.acquires]
    · have hs' : strlen pwd ≠ 0 := fun h => h5 ⟨hn, h⟩
      have ha : lib.pdf_authenticatepassword lib.pdf_newxref pwd = 0 := by
        by_contra h'
        exact h6 ⟨hn, h'⟩
      simp only [nativeOpen_decrypt, nativeOpen_metadata, nativeOpen_cleanup, hd, hn, hs', ha, h7,
        h8, ne_eq, not_false_eq_true, not_true_eq_false, if_true, if_false]
      split_ifs <;> simp_all [acquired_cons, Call.acquires]

/-- C5, as the code has it: on the handle of an open that threw nothing,
`nativeClose` releases, in this order, the outline if it is not `NULL`, the
store of the xref if it is not `NULL`, the xref, the renderer and the document
struct.  Leaving the store aside, which `nativeOpen` did not acquire, this is
the reverse of the order in which `nativeOpen` acquired them, each once; with a
`NULL` store it is exactly that reverse. -/
theorem nativeClose_release_order (jni : JNIEnv) (lib : Fitz) (this : JObject)
    (fitzmemory : Int) (fname pwd : String) (h : Heap) (store : Ptr)
    (hs : throwCalls (nativeOpen jni lib this fitzmemory fname pwd).trace = [])
    (hdoc : h.docs (nativeOpen jni lib this fitzmemory fname pwd).ret =
      some (nativeOpen jni lib this fitzmemory fname pwd).doc)
    (hst : h.xref_store lib.pdf_newxref = some store) :
    ∃ c, nativeClose h (nativeOpen jni lib this fitzmemory fname pwd).ret = some c ∧
      c.ret = (nativeOpen jni lib this fitzmemory fname pwd).ret ∧
      released c.trace =
        (if lib.pdf_loadoutline lib.pdf_newxref ≠ NULL then
          [Resource.outline (lib.pdf_loadoutline lib.pdf_newxref)] else []) ++
        (if store ≠ NULL then [Resource.store store] else []) ++
        [Resource.xref lib.pdf_newxref, Resource.renderer (lib.fz_newrenderer fitzmemory).2,
          Resource.document lib.fz_malloc] ∧
      (released c.trace).filter (fun x => !x.isStore) =
        (acquired (nativeOpen jni lib this fitzmemory fname pwd).trace).reverse ∧
      (store = NULL →
        released c.trace = (acquired (nativeOpen jni lib this fitzmemory fname pwd).trace).reverse) := by
  obtain ⟨hm, hd, ha⟩ := nativeOpen_success jni lib this fitzmemory fname pwd hs
  rw [ha]
  rw [hd, ret_nativeOpen] at hdoc
  rw [ret_nativeOpen]
  refine ⟨_, by simp [nativeClose, hm, hdoc, hst]; rfl, rfl, ?_, ?_, ?_⟩
  · by_cases ho : lib.pdf_loadoutline lib.pdf_newxref = NULL <;>
      by_cases hz : store = NULL <;>
      simp [ho, hz, released_cons, Call.releases]
  · by_cases ho : lib.pdf_loadoutline lib.pdf_newxref = NULL <;>
      by_cases hz : store = NULL <;>
      simp [ho, hz, released_cons, Call.releases, Resource.isStore]
  · intro hz
    by_cases ho : lib.pdf_loadoutline lib.pdf_newxref = NULL <;>
      simp [ho, hz, released_cons, Call.releases]

/-- The release order on the sample document once its xref has a store. -/
theorem nativeClose_release_order_witness :
    (throwCalls (nativeOpen sampleEnv sampleLib sampleThis 0 "a.pdf" "").trace = [] ∧
      sampleHeap.docs (nativeOpen sampleEnv sampleLib sampleThis 0 "a.pdf" "").ret =
        some (nativeOpen sampleEnv sampleLib sampleThis 0 "a.pdf" "").doc ∧
      sampleHeap.xref_store sampleLib.pdf_newxref = some 108) ∧
    ∃ c, nativeClose sampleHeap (nativeOpen sampleEnv sampleLib sampleThis 0 "a.pdf" "").ret =
        some c ∧
      (released c.trace).filter (fun x => !x.isStore) =
        (acquired (nativeOpen sampleEnv sampleLib sampleThis 0 "a.pdf" "").trace).reverse :=
  ⟨by decide,
   (nativeClose_release_order sampleEnv sampleLib sampleThis 0 "a.pdf" "" sampleHeap 108
      (by decide) (by decide) (by decide)).imp fun _ hc => ⟨hc.1, hc.2.2.2.1⟩⟩

/-- C5 as stated fails: the sample open succeeds and acquires document,
renderer, xref and outline; once page loading has given the xref a store,
`nativeClose` makes five release calls, `pdf_dropstore` among them, which is
not the reverse of the four acquisitions. -/
theorem nativeClose_not_exact_reverse :
    throwCalls (nativeOpen sampleEnv sampleLib sampleThis 0 "a.pdf" "").trace = [] ∧
    (nativeOpen sampleEnv sampleLib sampleThis 0 "a.pdf" "").ret = 100 ∧
    acquired (nativeOpen sampleEnv sampleLib sampleThis 0 "a.pdf" "").trace =
      [Resource.document 100, Resource.renderer 101, Resource.xref 102, Resource.outline 105] ∧
    (nativeClose sampleHeap 100).map (fun c => released c.trace) =
      some [Resource.outline 105, Resource.store 108, Resource.xref 102, Resource.renderer 101,
        Resource.document 100] ∧
    (nativeClose sampleHeap 100).map (fun c => released c.trace) ≠
      some (acquired (nativeOpen sampleEnv sampleLib sampleThis 0 "a.pdf" "").trace).reverse := by
  decide

theorem store_eq_some {α : Type} (a : List α) (i : Nat) (v : α) (h : i < a.length) :
    store a i v = some (a.set i v) := by
  simp [store, h]

/-- C7: when the page struct is allocated, the document handle is live,
`pdf_loadpage` returns no error, the `mediabox` array can be pinned and holds
its four elements, and `this` has the `int` field `rotate`, `nativeOpenPage`
returns the allocated non-null pointer without calling `throw_exception`,
leaves the page's `x0, y0, x1, y1` in elements 0 to 3 of the array, leaves every
other element and the length of the array as they were, and sets `rotate` to
the page's rotation. -/
theorem nativeOpenPage_surfaces (jni : JNIEnv) (lib : Fitz) (h : Heap) (this : JObject)
    (dochandle : Ptr) (mediabox : List jfloat) (pageno : Int) (d : renderdocument_t) (xref : Ptr)
    (hm : lib.fz_malloc ≠ NULL)
    (hdoc : h.docs dochandle = some d) (hx : d.xref = some xref)
    (herr : (lib.pdf_loadpage xref (lib.pdf_getpageobject xref pageno)).1 = 0)
    (hcrit : jni.GetPrimitiveArrayCritical "mediabox" = true)
    (hlen : 4 ≤ mediabox.length)
    (hfid : jni.GetFieldID "rotate" "I" ≠ NULL) :
    ∃ r, nativeOpenPage jni lib h this dochandle mediabox pageno = some r ∧
      r.mediabox[0]? =
        some (lib.pdf_loadpage xref (lib.pdf_getpageobject xref pageno)).2.2.mediabox.x0 ∧
      r.mediabox[1]? =
        some (lib.pdf_loadpage xref (lib.pdf_getpageobject xref pageno)).2.2.mediabox.y0 ∧
      r.mediabox[2]? =
        some (lib.pdf_loadpage xref (lib.pdf_getpageobject xref pageno)).2.2.mediabox.x1 ∧
      r.mediabox[3]? =
        some (lib.pdf_loadpage xref (lib.pdf_getpageobject xref pageno)).2.2.mediabox.y1 ∧
      (∀ i, 4 ≤ i → r.mediabox[i]? = mediabox[i]?) ∧
      r.mediabox.length = mediabox.length ∧
      r.this.intField (jni.GetFieldID "rotate" "I") =
        (lib.pdf_loadpage xref (lib.pdf_getpageobject xref pageno)).2.2.rotate ∧
      throwCalls r.trace = [] ∧ thrown r.trace = [] ∧
      r.ret = lib.fz_malloc ∧ r.ret ≠ NULL := by
  have s0 := store_eq_some mediabox 0
    (lib.pdf_loadpage xref (lib.pdf_getpageobject xref pageno)).2.2.mediabox.x0 (by omega)
  have s1 := store_eq_some (mediabox.set 0
      (lib.pdf_loadpage xref (lib.pdf_getpageobject xref pageno)).2.2.mediabox.x0) 1
    (lib.pdf_loadpage xref (lib.pdf_getpageobject xref pageno)).2.2.mediabox.y0
    (by simp; omega)
  have s2 := store_eq_some ((mediabox.set 0
      (lib.pdf_loadpage xref (lib.pdf_getpageobject xref pageno)).2.2.mediabox.x0).set 1
      (lib.pdf_loadpage xref (lib.pdf_getpageobject xref pageno)).2.2.mediabox.y0) 2
    (lib.pdf_loadpage xref (lib.pdf_getpageobject xref pageno)).2.2.mediabox.x1
    (by simp; omega)
  have s3 := store_eq_some (((mediabox.set 0
      (lib.pdf_loadpage xref (lib.pdf_getpageobject xref pageno)).2.2.mediabox.x0).set 1
      (lib.pdf_loadpage xref (lib.pdf_getpageobject xref pageno)).2.2.mediabox.y0).set 2
      (lib.pdf_loadpage xref (lib.pdf_getpageobject xref pageno)).2.2.mediabox.x1) 3
    (lib.pdf_loadpage xref (lib.pdf_getpageobject xref pageno)).2.2.mediabox.y1
    (by simp; omega)
  refine ⟨_, by simp [nativeOpenPage, hm, hdoc, hx, herr, hcrit, hfid, s0, s1, s2, s3]; rfl,
    ?_, ?_, ?_, ?_, ?_, ?_, ?_, ?_, ?_, ?_, ?_⟩
  · simp [List.getElem?_set]
    rintro rfl
    simp at hlen
  · simp [List.getElem?_set]; omega
  · simp [List.getElem?_set]; omega
  · simp [List.getElem?_set]; omega
  · intro i hi
    have e0 : ¬ 0 = i := by omega
    have e1 : ¬ 1 = i := by omega
    have e2 : ¬ 2 = i := by omega
    have e3 : ¬ 3 = i := by omega
    simp [List.getElem?_set, e0, e1, e2, e3]
  · simp
  · simp [JObject.SetIntField]
  · simp [throwCalls_cons, Call.asThrowCall]
  · simp [thrown_cons, Call.asThrowNew]
  · rfl
  · exact hm

/-- C7 on page 3 of the sample document and an array of five elements. -/
theorem nativeOpenPage_surfaces_witness :
    (pageLib.fz_malloc ≠ NULL ∧
      sampleHeap.docs 100 = some (nativeOpen sampleEnv sampleLib sampleThis 0 "a.pdf" "").doc ∧
      (nativeOpen sampleEnv sampleLib sampleThis 0 "a.pdf" "").doc.xref = some 102 ∧
      (pageLib.pdf_loadpage 102 (pageLib.pdf_getpageobject 102 3)).1 = 0 ∧
      sampleEnv.GetPrimitiveArrayCritical "mediabox" = true ∧
      4 ≤ [1, 2, 3, 4, 5].length ∧
      sampleEnv.GetFieldID "rotate" "I" ≠ NULL) ∧
    ∃ r, nativeOpenPage sampleEnv pageLib sampleHeap sampleThis 100 [1, 2, 3, 4, 5] 3 = some r ∧
      r.mediabox[2]? = some 0x44190000 ∧ r.mediabox[4]? = some 5 ∧ r.ret = 110 :=
  ⟨by decide,
   (nativeOpenPage_surfaces sampleEnv pageLib sampleHeap sampleThis 100 [1, 2, 3, 4, 5] 3
      (nativeOpen sampleEnv sampleLib sampleThis 0 "a.pdf" "").doc 102
      (by decide) (by decide) (by decide) (by decide) (by decide) (by decide) (by decide)).imp
    fun _ hr => ⟨hr.1, hr.2.2.2.1, by rw [hr.2.2.2.2.2.1 4 (by decide)]; rfl,
      hr.2.2.2.2.2.2.2.2.2.2.1⟩⟩

/-- The loop, started inside the buffer, ends; it replaces the words from `val`
to `val + n - 1` by their transforms and leaves the others. -/
theorem pixel_loop_spec (n : Nat) : ∀ (col : List Nat) (val : Nat), val + n ≤ col.length →
    ∃ out, pixel_loop col val n = some out ∧ out.length = col.length ∧
      ∀ i, out[i]? = if val ≤ i ∧ i < val + n then col[i]?.map pixel else col[i]? := by
  induction n with
  | zero =>
    intro col val _
    refine ⟨col, rfl, rfl, ?_⟩
    intro i
    have : ¬ (val ≤ i ∧ i < val + 0) := by omega
    rw [if_neg this]
  | succ n ih =>
    intro col val hv
    have hlt : val < col.length := by omega
    obtain ⟨out, ho, hlen, hget⟩ := ih (col.set val (pixel col[val])) (val + 1)
      (by simp; omega)
    refine ⟨out, ?_, by simpa using hlen, ?_⟩
    · simp [pixel_loop, List.getElem?_eq_getElem hlt, ho]
    · intro i
      rw [hget i]
      by_cases hi : i = val
      · subst hi
        have c1 : ¬ (i + 1 ≤ i ∧ i < i + 1 + n) := by omega
        have c2 : i ≤ i ∧ i < i + (n + 1) := by omega
        rw [if_neg c1, if_pos c2, List.getElem?_eq_getElem hlt]
        simp [List.getElem?_set, hlt]
      · have hne : ¬ val = i := fun h => hi h.symm
        by_cases c : val ≤ i ∧ i < val + (n + 1)
        · have c1 : val + 1 ≤ i ∧ i < val + 1 + n := by omega
          simp [c, c1, List.getElem?_set, hne]
        · have c1 : ¬ (val + 1 ≤ i ∧ i < val + 1 + n) := by omega
          simp [c, c1, List.getElem?_set, hne]

theorem render_trace (lib : Fitz) (h : Heap) (doc page : Ptr) (ctm : fz_matrix)
    (viewbox : fz_irect) (buffer : Option (List Nat)) (rd : Rendered)
    (hrd : render lib h doc page ctm viewbox buffer = some rd) :
    (rd.error ≠ 0 ∧ rd.trace = [Call.fz_newpixmapwithbufferandrect viewbox 4 rd.error]) ∨
    ∃ rast tree, rd.trace = [Call.fz_newpixmapwithbufferandrect viewbox 4 0,
      Call.fz_rendertreetopixmap rast tree ctm viewbox 1 rd.error] := by
  unfold render at hrd
  by_cases he : (lib.fz_newpixmapwithbufferandrect buffer viewbox 4).1 = 0
  · right
    simp only [he, if_true, Option.bind_eq_some] at hrd
    obtain ⟨d, -, rast, -, p, -, pagep, -, pdfpage, -, hr⟩ := hrd
    simp only [Option.some.injEq] at hr
    subst hr
    exact ⟨rast, pdfpage.tree, by simp⟩
  · left
    simp only [he, if_false, Option.some.injEq] at hrd
    subst hrd
    exact ⟨he, rfl⟩

theorem convert_cases (rd : Rendered) (c : List Nat × List Call) (hc : convert rd = some c) :
    (rd.error = 0 ∧ c.2 = [Call.DEBUG "Converting image buffer pixel order"]) ∨
    (rd.error ≠ 0 ∧ c = (rd.buffer, [])) := by
  unfold convert at hc
  by_cases he : rd.error = 0
  · left
    simp only [he, if_true, Option.bind_eq_some] at hc
    obtain ⟨length, -, col, -, hr⟩ := hc
    simp only [Option.some.injEq] at hr
    subst hr
    exact ⟨he, rfl⟩
  · right
    simp only [he, if_false, Option.some.injEq] at hc
    exact ⟨he, hc.symm⟩

/-- A loop that ends has stayed inside the buffer. -/
theorem pixel_loop_bound (n : Nat) : ∀ (col : List Nat) (val : Nat) (out : List Nat),
    pixel_loop col val n = some out → n = 0 ∨ val + n ≤ col.length := by
  induction n with
  | zero => intro _ _ _ _; exact Or.inl rfl
  | succ n ih =>
    intro col val out ho
    right
    by_cases hlt : val < col.length
    · rw [pixel_loop, List.getElem?_eq_getElem hlt] at ho
      rcases ih _ _ _ ho with h0 | hb
      · omega
      · simp only [List.length_set] at hb
        omega
    · have hn : col[val]? = none := List.getElem?_eq_none (by omega)
      rw [pixel_loop, hn] at ho
      exact absurd ho (by simp)

/-- The byte order pass after a render without error, when it ends: the length
is kept, the words below `w * h` are transformed and the others are kept. -/
theorem convert_effect (rd : Rendered) (c : List Nat × List Call) (herr : rd.error = 0)
    (hc : convert rd = some c) :
    c.1.length = rd.buffer.length ∧
    ∀ i : Nat, c.1[i]? =
      if (i : Int) < rd.pixmap.w * rd.pixmap.h then rd.buffer[i]?.map pixel else rd.buffer[i]? := by
  unfold convert at hc
  simp only [herr, if_true, Option.bind_eq_some] at hc
  obtain ⟨length, hlen, col, hcol, hr⟩ := hc
  simp only [Option.some.injEq] at hr
  subst hr
  have hl : length = rd.pixmap.w * rd.pixmap.h := by
    unfold int_mul at hlen
    split_ifs at hlen
    simp only [Option.some.injEq] at hlen
    exact hlen.symm
  subst hl
  rcases pixel_loop_bound _ _ _ _ hcol with h0 | hb
  · rw [h0] at hcol
    simp only [pixel_loop, Option.some.injEq] at hcol
    subst hcol
    refine ⟨rfl, fun i => ?_⟩
    have : ¬ ((i : Int) < rd.pixmap.w * rd.pixmap.h) := by omega
    rw [if_neg this]
  · obtain ⟨out, ho, hlen', hget⟩ := pixel_loop_spec _ rd.buffer 0 hb
    rw [ho] at hcol
    simp only [Option.some.injEq] at hcol
    subst hcol
    refine ⟨hlen', fun i => ?_⟩
    rw [hget i]
    by_cases hi : (i : Int) < rd.pixmap.w * rd.pixmap.h
    · have c1 : 0 ≤ i ∧ i < 0 + (rd.pixmap.w * rd.pixmap.h).toNat := by omega
      rw [if_pos hi, if_pos c1]
    · have c1 : ¬ (0 ≤ i ∧ i < 0 + (rd.pixmap.w * rd.pixmap.h).toNat) := by omega
      rw [if_neg hi, if_neg c1]

/-- C9: after a render without error, with `w * h` computed without overflow and
the `w * h` pixels lying inside the buffer, `nativeCreateView` returns, and the
buffer it leaves has the length the library left; each word at an index below
`w * h` is the transform of the word the library rendered there, each word at an
index from `w * h` on is the rendered one, and with `w * h ≤ 0` the buffer is
the rendered one. -/
theorem nativeCreateView_rewrites (jni : JNIEnv) (lib : Fitz) (h : Heap)
    (dochandle pagehandle : Ptr) (viewboxarray : List Int) (matrixarray : List jfloat)
    (bufferarray : List Nat) (ctm : fz_matrix) (viewbox : fz_irect) (rd : Rendered)
    (hctm : read_ctm jni matrixarray = some ctm)
    (hvb : read_viewbox jni viewboxarray = some viewbox)
    (hcrit : jni.GetPrimitiveArrayCritical "bufferarray" = true)
    (hrd : render lib h dochandle pagehandle ctm viewbox (some bufferarray) = some rd)
    (herr : rd.error = 0)
    (hov : INT_MIN ≤ rd.pixmap.w * rd.pixmap.h ∧ rd.pixmap.w * rd.pixmap.h ≤ INT_MAX)
    (hfit : rd.pixmap.w * rd.pixmap.h ≤ rd.buffer.length) :
    ∃ r, nativeCreateView jni lib h dochandle pagehandle viewboxarray matrixarray bufferarray =
        some r ∧
      r.buffer.length = rd.buffer.length ∧
      (∀ i : Nat, (i : Int) < rd.pixmap.w * rd.pixmap.h →
        r.buffer[i]? = rd.buffer[i]?.map pixel) ∧
      (∀ i : Nat, rd.pixmap.w * rd.pixmap.h ≤ (i : Int) → r.buffer[i]? = rd.buffer[i]?) ∧
      (rd.pixmap.w * rd.pixmap.h ≤ 0 → r.buffer = rd.buffer) := by
  have hn : 0 + (rd.pixmap.w * rd.pixmap.h).toNat ≤ rd.buffer.length := by omega
  obtain ⟨out, ho, hlen, hget⟩ := pixel_loop_spec _ rd.buffer 0 hn
  have hmul : int_mul rd.pixmap.w rd.pixmap.h = some (rd.pixmap.w * rd.pixmap.h) := by
    simp [int_mul, hov]
  have hconv : convert rd = some (out, [Call.DEBUG "Converting image buffer pixel order"]) := by
    simp [convert, herr, hmul, ho]
  refine ⟨_, by simp [nativeCreateView, pin, hctm, hvb, hcrit, hrd, hconv]; rfl, hlen,
    ?_, ?_, ?_⟩
  · intro i hi
    have c : 0 ≤ i ∧ i < 0 + (rd.pixmap.w * rd.pixmap.h).toNat := by omega
    show out[i]? = _
    rw [hget i, if_pos c]
  · intro i hi
    have c : ¬ (0 ≤ i ∧ i < 0 + (rd.pixmap.w * rd.pixmap.h).toNat) := by omega
    show out[i]? = _
    rw [hget i, if_neg c]
  · intro hle
    show out = _
    apply List.ext_getElem?
    intro i
    have c : ¬ (0 ≤ i ∧ i < 0 + (rd.pixmap.w * rd.pixmap.h).toNat) := by omega
    rw [hget i, if_neg c]

/-- C9 on a pixmap of 2 by 1 pixels over a buffer of three words. -/
theorem nativeCreateView_rewrites_witness :
    (read_ctm sampleEnv [1, 0, 0, 1, 0, 0] = some ⟨1, 0, 0, 1, 0, 0⟩ ∧
      read_viewbox sampleEnv [0, 0, 2, 1] = some ⟨0, 0, 2, 1⟩ ∧
      sampleEnv.GetPrimitiveArrayCritical "bufferarray" = true ∧
      render sampleLib sampleHeap 100 110 ⟨1, 0, 0, 1, 0, 0⟩ ⟨0, 0, 2, 1⟩ (some [5, 6, 7]) =
        some sampleRendered ∧
      sampleRendered.error = 0 ∧
      (INT_MIN ≤ sampleRendered.pixmap.w * sampleRendered.pixmap.h ∧
        sampleRendered.pixmap.w * sampleRendered.pixmap.h ≤ INT_MAX) ∧
      sampleRendered.pixmap.w * sampleRendered.pixmap.h ≤ sampleRendered.buffer.length) ∧
    ∃ r, nativeCreateView sampleEnv sampleLib sampleHeap 100 110 [0, 0, 2, 1] [1, 0, 0, 1, 0, 0]
        [5, 6, 7] = some r ∧
      r.buffer[1]? = some 0x563412 ∧ r.buffer[2]? = some 0x12345678 :=
  ⟨⟨by decide, by decide, by decide, rfl, by decide, by decide, by decide⟩,
   (nativeCreateView_rewrites sampleEnv sampleLib sampleHeap 100 110 [0, 0, 2, 1]
      [1, 0, 0, 1, 0, 0] [5, 6, 7] ⟨1, 0, 0, 1, 0, 0⟩ ⟨0, 0, 2, 1⟩ sampleRendered
      (by decide) (by decide) (by decide) rfl (by decide) (by decide) (by decide)).imp
    fun _ hr => ⟨hr.1, by rw [hr.2.2.1 1 (by decide)]; decide,
      by rw [hr.2.2.2.1 2 (by decide)]; rfl⟩⟩

/-- Every run of `nativeCreateView`: the calls of `throw_exception`, what they
raise, when rendering and the byte order pass are entered, and what the pass
does to the buffer. -/
theorem nativeCreateView_run (jni : JNIEnv) (lib : Fitz) (h : Heap)
    (dochandle pagehandle : Ptr) (viewboxarray : List Int) (matrixarray : List jfloat)
    (bufferarray : List Nat) (r : ViewResult)
    (hr : nativeCreateView jni lib h dochandle pagehandle viewboxarray matrixarray bufferarray =
        some r) :
    throwCalls r.trace =
      (if r.trace.any Call.isRenderError then [("java/lang/Exception", "error rendering page")]
      else []) ∧
    thrown r.trace = raisedBy jni (throwCalls r.trace) ∧
    (r.trace.any Call.isRenderTree = true → r.trace.any Call.isPixmapCreated = true) ∧
    (Call.DEBUG "Converting image buffer pixel order" ∈ r.trace ↔
      r.trace.any Call.isRenderError = false) ∧
    ∃ ctm viewbox rd, read_ctm jni matrixarray = some ctm ∧
      read_viewbox jni viewboxarray = some viewbox ∧
      render lib h dochandle pagehandle ctm viewbox (pin jni "bufferarray" bufferarray) =
        some rd ∧
      (r.trace.any Call.isRenderError = true ↔ rd.error ≠ 0) ∧
      (jni.GetPrimitiveArrayCritical "bufferarray" = false → r.buffer = bufferarray) ∧
      (jni.GetPrimitiveArrayCritical "bufferarray" = true →
        (rd.error ≠ 0 → r.buffer = rd.buffer) ∧
        (rd.error = 0 →
          r.buffer.length = rd.buffer.length ∧
          ∀ i : Nat, r.buffer[i]? =
            if (i : Int) < rd.pixmap.w * rd.pixmap.h then rd.buffer[i]?.map pixel
            else rd.buffer[i]?)) := by
  simp only [nativeCreateView, Option.bind_eq_some, Option.some.injEq] at hr
  obtain ⟨ctm, hctm, viewbox, hvb, rd, hrd, c, hc, rfl⟩ := hr
  have hbuf : (jni.GetPrimitiveArrayCritical "bufferarray" = false →
        unpin bufferarray (pin jni "bufferarray" bufferarray) c.1 = bufferarray) ∧
      (jni.GetPrimitiveArrayCritical "bufferarray" = true →
        unpin bufferarray (pin jni "bufferarray" bufferarray) c.1 = c.1) := by
    constructor <;> intro hp <;> simp [pin, unpin, hp]
  rcases render_trace _ _ _ _ _ _ _ _ hrd with ⟨he, ht⟩ | ⟨rast, tree, ht⟩
  · rcases convert_cases _ _ hc with ⟨h0, -⟩ | ⟨-, hc2⟩
    · exact absurd h0 he
    · subst hc2
      refine ⟨?_, ?_, ?_, ?_, ctm, viewbox, rd, hctm, hvb, hrd, ?_, hbuf.1, fun hp =>
        ⟨fun _ => hbuf.2 hp, fun h0 => absurd h0 he⟩⟩
      all_goals
        simp [ht, he, throwCalls_cons, thrown_cons, Call.asThrowCall, Call.asThrowNew,
          Call.isRenderError, Call.isRenderTree, Call.isPixmapCreated, EXC_PAGERENDER,
          thrown_throw_exception, raisedBy_singleton]
      all_goals
        simp only [throw_exception]
        split_ifs <;> simp
  · rcases convert_cases _ _ hc with ⟨h0, hc2⟩ | ⟨he, hc2⟩
    · refine ⟨?_, ?_, ?_, ?_, ctm, viewbox, rd, hctm, hvb, hrd, ?_, hbuf.1, fun hp =>
        ⟨fun he => absurd h0 he, fun _ => ?_⟩⟩
      · simp [ht, h0, hc2, throwCalls_cons, Call.asThrowCall, Call.isRenderError]
      · simp [ht, h0, hc2, throwCalls_cons, thrown_cons, Call.asThrowCall, Call.asThrowNew]
      · simp [ht, h0, hc2, Call.isRenderTree, Call.isPixmapCreated]
      · simp [ht, h0, hc2, Call.isRenderError]
      · simp [ht, h0, hc2, Call.isRenderError]
      · show (unpin bufferarray (pin jni "bufferarray" bufferarray) c.1).length = _ ∧ _
        rw [hbuf.2 hp]
        exact convert_effect rd c h0 hc
    · subst hc2
      refine ⟨?_, ?_, ?_, ?_, ctm, viewbox, rd, hctm, hvb, hrd, ?_, hbuf.1, fun hp =>
        ⟨fun _ => hbuf.2 hp, fun h0 => absurd h0 he⟩⟩
      all_goals
        simp [ht, he, throwCalls_cons, thrown_cons, Call.asThrowCall, Call.asThrowNew,
          Call.isRenderError, Call.isRenderTree, Call.isPixmapCreated, EXC_PAGERENDER,
          thrown_throw_exception, raisedBy_singleton]
      all_goals
        simp only [throw_exception]
        split_ifs <;> simp

/-- C6: in every run of `nativeCreateView`, `throw_exception` is called (once,
with "error rendering page") exactly when `fz_newpixmapwithbufferandrect` or
`fz_rendertreetopixmap` returned a non-zero error code, and raises what the
runtime lets it raise; `fz_rendertreetopixmap` is called only after a pixmap
creation without error; the byte order pass is entered exactly when neither
returned an error, and then the pinned buffer keeps its length, has every word
below `w * h` replaced by its transform and keeps the others, while after an
error the buffer is the one the library left; an array that could not be
pinned is returned as it was.  When one of the two calls returned an error the
run does return, whether or not the buffer could be pinned. -/
theorem nativeCreateView_error_translation (jni : JNIEnv) (lib : Fitz) (h : Heap)
    (dochandle pagehandle : Ptr) (viewboxarray : List Int) (matrixarray : List jfloat)
    (bufferarray : List Nat) :
    (∀ r, nativeCreateView jni lib h dochandle pagehandle viewboxarray matrixarray bufferarray =
        some r →
      throwCalls r.trace =
        (if r.trace.any Call.isRenderError then [("java/lang/Exception", "error rendering page")]
        else []) ∧
      thrown r.trace = raisedBy jni (throwCalls r.trace) ∧
      (r.trace.any Call.isRenderTree = true → r.trace.any Call.isPixmapCreated = true) ∧
      (Call.DEBUG "Converting image buffer pixel order" ∈ r.trace ↔
        r.trace.any Call.isRenderError = false) ∧
      ∃ ctm viewbox rd, read_ctm jni matrixarray = some ctm ∧
        read_viewbox jni viewboxarray = some viewbox ∧
        render lib h dochandle pagehandle ctm viewbox (pin jni "bufferarray" bufferarray) =
          some rd ∧
        (r.trace.any Call.isRenderError = true ↔ rd.error ≠ 0) ∧
        (jni.GetPrimitiveArrayCritical "bufferarray" = false → r.buffer = bufferarray) ∧
        (jni.GetPrimitiveArrayCritical "bufferarray" = true →
          (rd.error ≠ 0 → r.buffer = rd.buffer) ∧
          (rd.error = 0 →
            r.buffer.length = rd.buffer.length ∧
            ∀ i : Nat, r.buffer[i]? =
              if (i : Int) < rd.pixmap.w * rd.pixmap.h then rd.buffer[i]?.map pixel
              else rd.buffer[i]?))) ∧
    (∀ ctm viewbox rd, read_ctm jni matrixarray = some ctm →
      read_viewbox jni viewboxarray = some viewbox →
      render lib h dochandle pagehandle ctm viewbox (pin jni "bufferarray" bufferarray) =
        some rd →
      rd.error ≠ 0 →
      ∃ r, nativeCreateView jni lib h dochandle pagehandle viewboxarray matrixarray bufferarray =
          some r ∧
        throwCalls r.trace = [("java/lang/Exception", "error rendering page")] ∧
        r.trace.any Call.isRenderError = true ∧
        Call.DEBUG "Converting image buffer pixel order" ∉ r.trace ∧
        (jni.GetPrimitiveArrayCritical "bufferarray" = true → r.buffer = rd.buffer) ∧
        (jni.GetPrimitiveArrayCritical "bufferarray" = false → r.buffer = bufferarray)) := by
  refine ⟨fun r hr => nativeCreateView_run jni lib h dochandle pagehandle viewboxarray
    matrixarray bufferarray r hr, ?_⟩
  intro ctm viewbox rd hctm hvb hrd he
  have hconv : convert rd = some (rd.buffer, []) := by simp [convert, he]
  have hrun : nativeCreateView jni lib h dochandle pagehandle viewboxarray matrixarray
      bufferarray = some
        { trace := [Call.DEBUG "PdfView(%p).nativeCreateView(%p, %p)",
            Call.GetPrimitiveArrayCritical "matrixarray",
            Call.ReleasePrimitiveArrayCritical "matrixarray",
            Call.DEBUG "Matrix: %f %f %f %f %f %f",
            Call.GetPrimitiveArrayCritical "viewboxarray",
            Call.ReleasePrimitiveArrayCritical "viewboxarray",
            Call.DEBUG "Viewbox: %d %d %d %d",
            Call.DEBUG "doing the rendering...",
            Call.GetPrimitiveArrayCritical "bufferarray"] ++ rd.trace ++ [] ++
            [Call.ReleasePrimitiveArrayCritical "bufferarray", Call.fz_droppixmapwithoutbuffer] ++
            ([Call.DEBUG "error!"] ++
              throw_exception jni EXC_PAGERENDER "error rendering page") ++
            [Call.DEBUG "PdfView.nativeCreateView() done"]
          buffer := unpin bufferarray (pin jni "bufferarray" bufferarray) rd.buffer } := by
    simp [nativeCreateView, hctm, hvb, hrd, hconv, he]
  obtain ⟨h1, -, -, h4, -⟩ := nativeCreateView_run jni lib h dochandle pagehandle viewboxarray
    matrixarray bufferarray _ hrun
  have herr : List.any
      ([Call.DEBUG "PdfView(%p).nativeCreateView(%p, %p)",
            Call.GetPrimitiveArrayCritical "matrixarray",
            Call.ReleasePrimitiveArrayCritical "matrixarray",
            Call.DEBUG "Matrix: %f %f %f %f %f %f",
            Call.GetPrimitiveArrayCritical "viewboxarray",
            Call.ReleasePrimitiveArrayCritical "viewboxarray",
            Call.DEBUG "Viewbox: %d %d %d %d",
            Call.DEBUG "doing the rendering...",
            Call.GetPrimitiveArrayCritical "bufferarray"] ++ rd.trace ++ [] ++
            [Call.ReleasePrimitiveArrayCritical "bufferarray", Call.fz_droppixmapwithoutbuffer] ++
            ([Call.DEBUG "error!"] ++
              throw_exception jni EXC_PAGERENDER "error rendering page") ++
            [Call.DEBUG "PdfView.nativeCreateView() done"]) Call.isRenderError = true := by
    rcases render_trace _ _ _ _ _ _ _ _ hrd with ⟨-, ht⟩ | ⟨rast, tree, ht⟩ <;>
      simp [ht, he, Call.isRenderError]
  refine ⟨_, hrun, ?_, herr, ?_, ?_, ?_⟩
  · rw [h1, if_pos herr]
  · intro hmem
    have := h4.1 hmem
    rw [herr] at this
    exact absurd this (by simp)
  · intro hp
    simp [pin, unpin, hp]
  · intro hp
    simp [pin, unpin, hp]

/-- C6 on a render that fails, on a buffer that cannot be pinned, and on a
render without error, where the pass rewrites the first two words. -/
theorem nativeCreateView_error_translation_witness :
    (read_ctm sampleEnv [1, 0, 0, 1, 0, 0] = some ⟨1, 0, 0, 1, 0, 0⟩ ∧
      read_viewbox sampleEnv [0, 0, 2, 1] = some ⟨0, 0, 2, 1⟩ ∧
      render noRenderLib sampleHeap 100 110 ⟨1, 0, 0, 1, 0, 0⟩ ⟨0, 0, 2, 1⟩
        (pin sampleEnv "bufferarray" [5, 6, 7]) = some sampleFailed ∧
      sampleFailed.error ≠ 0 ∧
      read_ctm unpinnedEnv [1, 0, 0, 1, 0, 0] = some ⟨1, 0, 0, 1, 0, 0⟩ ∧
      read_viewbox unpinnedEnv [0, 0, 2, 1] = some ⟨0, 0, 2, 1⟩ ∧
      render sampleLib sampleHeap 100 110 ⟨1, 0, 0, 1, 0, 0⟩ ⟨0, 0, 2, 1⟩
        (pin unpinnedEnv "bufferarray" [5, 6, 7]) = some sampleUnpinned ∧
      sampleUnpinned.error ≠ 0 ∧
      unpinnedEnv.GetPrimitiveArrayCritical "bufferarray" = false) ∧
    (∃ r, nativeCreateView sampleEnv noRenderLib sampleHeap 100 110 [0, 0, 2, 1]
        [1, 0, 0, 1, 0, 0] [5, 6, 7] = some r ∧
      throwCalls r.trace = [("java/lang/Exception", "error rendering page")] ∧
      r.buffer = [5, 6, 7]) ∧
    (∃ r, nativeCreateView unpinnedEnv sampleLib sampleHeap 100 110 [0, 0, 2, 1]
        [1, 0, 0, 1, 0, 0] [5, 6, 7] = some r ∧
      throwCalls r.trace = [("java/lang/Exception", "error rendering page")] ∧
      r.buffer = [5, 6, 7]) ∧
    ∃ r, nativeCreateView sampleEnv sampleLib sampleHeap 100 110 [0, 0, 2, 1]
        [1, 0, 0, 1, 0, 0] [5, 6, 7] = some r ∧
      throwCalls r.trace = [] ∧
      Call.DEBUG "Converting image buffer pixel order" ∈ r.trace ∧
      r.buffer[0]? = some 0x563412 ∧ r.buffer[1]? = some 0x563412 ∧
      r.buffer[2]? = some 0x12345678 := by
  refine ⟨⟨by decide, by decide, rfl, by decide, by decide, by decide, rfl, by decide,
    by decide⟩, ?_, ?_, ?_⟩
  · exact ((nativeCreateView_error_translation sampleEnv noRenderLib sampleHeap 100 110
      [0, 0, 2, 1] [1, 0, 0, 1, 0, 0] [5, 6, 7]).2 ⟨1, 0, 0, 1, 0, 0⟩ ⟨0, 0, 2, 1⟩ sampleFailed
      (by decide) (by decide) rfl (by decide)).imp
      fun _ hr => ⟨hr.1, hr.2.1, hr.2.2.2.2.1 (by decide)⟩
  · exact ((nativeCreateView_error_translation unpinnedEnv sampleLib sampleHeap 100 110
      [0, 0, 2, 1] [1, 0, 0, 1, 0, 0] [5, 6, 7]).2 ⟨1, 0, 0, 1, 0, 0⟩ ⟨0, 0, 2, 1⟩ sampleUnpinned
      (by decide) (by decide) rfl (by decide)).imp
      fun _ hr => ⟨hr.1, hr.2.1, hr.2.2.2.2.2 (by decide)⟩
  · obtain ⟨r, hr⟩ : ∃ r, nativeCreateView sampleEnv sampleLib sampleHeap 100 110 [0, 0, 2, 1]
        [1, 0, 0, 1, 0, 0] [5, 6, 7] = some r := ⟨_, rfl⟩
    obtain ⟨h1, -, -, h4, ctm, viewbox, rd, hctm, hvb, hrd, herr, -, hp⟩ :=
      (nativeCreateView_error_translation sampleEnv sampleLib sampleHeap 100 110
        [0, 0, 2, 1] [1, 0, 0, 1, 0, 0] [5, 6, 7]).1 r hr
    have e1 : some ctm = some (⟨1, 0, 0, 1, 0, 0⟩ : fz_matrix) := hctm.symm.trans (by decide)
    have e2 : some viewbox = some (⟨0, 0, 2, 1⟩ : fz_irect) := hvb.symm.trans (by decide)
    simp only [Option.some.injEq] at e1 e2
    subst e1 e2
    have e3 : some rd = some sampleRendered := hrd.symm.trans rfl
    simp only [Option.some.injEq] at e3
    subst e3
    have hne : r.trace.any Call.isRenderError = false := by
      cases hb : r.trace.any Call.isRenderError
      · rfl
      · exact absurd (herr.1 hb) (by decide)
    obtain ⟨-, hget⟩ := (hp (by decide)).2 (by decide)
    refine ⟨r, hr, ?_, h4.2 hne, ?_, ?_, ?_⟩
    · rw [h1, hne]; rfl
    · rw [hget 0]; decide
    · rw [hget 1]; decide
    · rw [hget 2]; decide

/-- What a list of `throw_exception` calls of class `java/lang/Exception` with
non-empty messages raises is of the class found under that name, with a
non-empty message. -/
theorem raisedBy_class (jni : JNIEnv) (calls : List (String × String))
    (hc : ∀ cm ∈ calls, cm.1 = "java/lang/Exception" ∧ cm.2 ≠ "") :
    ∀ x ∈ raisedBy jni calls, x.1 = jni.FindClass "java/lang/Exception" ∧ x.2 ≠ "" := by
  intro x hx
  simp only [raisedBy, List.mem_filterMap] at hx
  obtain ⟨cm, hcm, hx⟩ := hx
  obtain ⟨h1, h2⟩ := hc cm hcm
  split_ifs at hx
  simp only [Option.some.injEq] at hx
  subst hx
  exact ⟨by simp [h1], h2⟩

/-- Every run of `nativeOpenPage`: its calls of `throw_exception`, and what they
raise. -/
theorem nativeOpenPage_run (jni : JNIEnv) (lib : Fitz) (h : Heap) (this : JObject)
    (dochandle : Ptr) (mediabox : List jfloat) (pageno : Int) (r : OpenPageResult)
    (hr : nativeOpenPage jni lib h this dochandle mediabox pageno = some r) :
    (throwCalls r.trace = [] ∨
      throwCalls r.trace = [("java/lang/Exception", "Out of Memory")] ∨
      throwCalls r.trace = [("java/lang/Exception", "error loading page")] ∨
      throwCalls r.trace = [("java/lang/Exception", "out of memory")] ∨
      throwCalls r.trace = [("java/lang/Exception", "cannot access instance fields!")]) ∧
    thrown r.trace = raisedBy jni (throwCalls r.trace) := by
  unfold nativeOpenPage at hr
  by_cases hm : lib.fz_malloc = NULL
  · simp only [hm, if_true, Option.some.injEq] at hr
    subst hr
    simp [EXC, thrown_throw_exception, raisedBy_singleton, throwCalls_cons, thrown_cons,
      Call.asThrowCall, Call.asThrowNew]
  simp only [hm, if_false, Option.bind_eq_some] at hr
  obtain ⟨d, -, xref, -, hr⟩ := hr
  by_cases he : (lib.pdf_loadpage xref (lib.pdf_getpageobject xref pageno)).1 = 0
  swap
  · simp only [ne_eq, he, not_false_eq_true, if_true, Option.some.injEq] at hr
    subst hr
    simp [EXC_PAGELOAD, thrown_throw_exception, raisedBy_singleton, throwCalls_cons,
      thrown_cons, Call.asThrowCall, Call.asThrowNew]
  simp only [ne_eq, he, not_true_eq_false, if_false] at hr
  by_cases hc : jni.GetPrimitiveArrayCritical "mediabox" = false
  · simp only [hc, if_true, Option.some.injEq] at hr
    subst hr
    simp [EXC, thrown_throw_exception, raisedBy_singleton, throwCalls_cons, thrown_cons,
      Call.asThrowCall, Call.asThrowNew]
  have hc2 : jni.GetPrimitiveArrayCritical "mediabox" = true := by simpa using hc
  rw [hc2] at hr
  simp only [Bool.true_eq_false, if_false, Option.bind_eq_some] at hr
  obtain ⟨b0, -, b1, -, b2, -, b3, -, hr⟩ := hr
  by_cases hf : jni.GetFieldID "rotate" "I" = NULL
  · simp only [ne_eq, hf, not_true_eq_false, if_false, Option.some.injEq] at hr
    subst hr
    simp [EXC, thrown_throw_exception, raisedBy_singleton, throwCalls_cons, thrown_cons,
      Call.asThrowCall, Call.asThrowNew]
  · simp only [ne_eq, hf, not_false_eq_true, if_true, Option.some.injEq] at hr
    subst hr
    simp [throwCalls_cons, thrown_cons, Call.asThrowCall, Call.asThrowNew]

/-- C2: every call of `throw_exception` made by `nativeOpen`, `nativeOpenPage`
and `nativeCreateView` has the class argument "java/lang/Exception" and a
non-empty message, and every exception they raise is of the class the runtime
finds under that name. -/
theorem single_exception_class (jni : JNIEnv) (lib : Fitz) (h : Heap) (this : JObject)
    (fitzmemory : Int) (fname pwd : String) (dochandle pagehandle : Ptr)
    (mediabox : List jfloat) (pageno : Int) (viewboxarray : List Int)
    (matrixarray : List jfloat) (bufferarray : List Nat) :
    ((∀ cm ∈ throwCalls (nativeOpen jni lib this fitzmemory fname pwd).trace,
        cm.1 = "java/lang/Exception" ∧ cm.2 ≠ "") ∧
      ∀ x ∈ thrown (nativeOpen jni lib this fitzmemory fname pwd).trace,
        x.1 = jni.FindClass "java/lang/Exception" ∧ x.2 ≠ "") ∧
    (∀ r, nativeOpenPage jni lib h this dochandle mediabox pageno = some r →
      (∀ cm ∈ throwCalls r.trace, cm.1 = "java/lang/Exception" ∧ cm.2 ≠ "") ∧
      ∀ x ∈ thrown r.trace, x.1 = jni.FindClass "java/lang/Exception" ∧ x.2 ≠ "") ∧
    (∀ r, nativeCreateView jni lib h dochandle pagehandle viewboxarray matrixarray bufferarray =
        some r →
      (∀ cm ∈ throwCalls r.trace, cm.1 = "java/lang/Exception" ∧ cm.2 ≠ "") ∧
      ∀ x ∈ thrown r.trace, x.1 = jni.FindClass "java/lang/Exception" ∧ x.2 ≠ "") := by
  refine ⟨?_, ?_, ?_⟩
  · have hc : ∀ cm ∈ throwCalls (nativeOpen jni lib this fitzmemory fname pwd).trace,
        cm.1 = "java/lang/Exception" ∧ cm.2 ≠ "" := by
      intro cm hcm
      rw [throwCalls_nativeOpen] at hcm
      split_ifs at hcm <;> simp at hcm <;> subst hcm <;> exact ⟨rfl, by decide⟩
    refine ⟨hc, ?_⟩
    rw [Faithful.nativeOpen jni lib this fitzmemory fname pwd]
    exact raisedBy_class jni _ hc
  · intro r hr
    obtain ⟨hcases, hf⟩ := nativeOpenPage_run jni lib h this dochandle mediabox pageno r hr
    have hc : ∀ cm ∈ throwCalls r.trace, cm.1 = "java/lang/Exception" ∧ cm.2 ≠ "" := by
      intro cm hcm
      rcases hcases with e | e | e | e | e <;> rw [e] at hcm <;> simp at hcm <;> subst hcm <;>
        exact ⟨rfl, by decide⟩
    refine ⟨hc, ?_⟩
    rw [hf]
    exact raisedBy_class jni _ hc
  · intro r hr
    obtain ⟨htc, hf, -, -⟩ := nativeCreateView_run jni lib h dochandle pagehandle viewboxarray
      matrixarray bufferarray r hr
    have hc : ∀ cm ∈ throwCalls r.trace, cm.1 = "java/lang/Exception" ∧ cm.2 ≠ "" := by
      intro cm hcm
      rw [htc] at hcm
      split_ifs at hcm
      · simp at hcm
        subst hcm
        exact ⟨rfl, by decide⟩
      · simp at hcm
    refine ⟨hc, ?_⟩
    rw [hf]
    exact raisedBy_class jni _ hc

/-- C2 on a page that cannot be loaded and on a render that fails. -/
theorem single_exception_class_witness :
    (∃ r, nativeOpenPage sampleEnv noPageLib sampleHeap sampleThis 100 [1, 2, 3, 4] 3 = some r ∧
      throwCalls r.trace = [("java/lang/Exception", "error loading page")] ∧
      (∀ cm ∈ throwCalls r.trace, cm.1 = "java/lang/Exception" ∧ cm.2 ≠ "") ∧
      ∀ x ∈ thrown r.trace, x.1 = sampleEnv.FindClass "java/lang/Exception" ∧ x.2 ≠ "") ∧
    (∃ r, nativeCreateView sampleEnv noRenderLib sampleHeap 100 110 [0, 0, 2, 1]
        [1, 0, 0, 1, 0, 0] [5, 6, 7] = some r ∧
      throwCalls r.trace = [("java/lang/Exception", "error rendering page")] ∧
      (∀ cm ∈ throwCalls r.trace, cm.1 = "java/lang/Exception" ∧ cm.2 ≠ "") ∧
      ∀ x ∈ thrown r.trace, x.1 = sampleEnv.FindClass "java/lang/Exception" ∧ x.2 ≠ "") :=
  ⟨⟨_, rfl, by decide,
    (single_exception_class sampleEnv noPageLib sampleHeap sampleThis 0 "a.pdf" "" 100 110
      [1, 2, 3, 4] 3 [0, 0, 2, 1] [1, 0, 0, 1, 0, 0] [5, 6, 7]).2.1 _ rfl⟩,
   ⟨_, rfl, by decide,
    (single_exception_class sampleEnv noRenderLib sampleHeap sampleThis 0 "a.pdf" "" 100 110
      [1, 2, 3, 4] 3 [0, 0, 2, 1] [1, 0, 0, 1, 0, 0] [5, 6, 7]).2.2 _ rfl⟩⟩

/-- C10: for a word with bytes `b3 b2 b1 b0` (`b3` most significant) the
transform gives `b3 + 2^8 * b2 + 2^16 * b1`: byte 0 is `b3`, byte 1 is `b2`,
byte 2 is `b1` and byte 3 is `0`; the result is below `2^24` and is the same for
every value of the least significant byte. -/
theorem pixel_exact_value (b3 b2 b1 b0 : Nat) (h3 : b3 < 256) (h2 : b2 < 256) (h1 : b1 < 256)
    (h0 : b0 < 256) :
    pixel (2 ^ 24 * b3 + 2 ^ 16 * b2 + 2 ^ 8 * b1 + b0) = b3 + 2 ^ 8 * b2 + 2 ^ 16 * b1 ∧
    byteAt (pixel (2 ^ 24 * b3 + 2 ^ 16 * b2 + 2 ^ 8 * b1 + b0)) 0 = b3 ∧
    byteAt (pixel (2 ^ 24 * b3 + 2 ^ 16 * b2 + 2 ^ 8 * b1 + b0)) 1 = b2 ∧
    byteAt (pixel (2 ^ 24 * b3 + 2 ^ 16 * b2 + 2 ^ 8 * b1 + b0)) 2 = b1 ∧
    byteAt (pixel (2 ^ 24 * b3 + 2 ^ 16 * b2 + 2 ^ 8 * b1 + b0)) 3 = 0 ∧
    pixel (2 ^ 24 * b3 + 2 ^ 16 * b2 + 2 ^ 8 * b1 + b0) < 2 ^ 24 ∧
    ∀ c0, c0 < 256 →
      pixel (2 ^ 24 * b3 + 2 ^ 16 * b2 + 2 ^ 8 * b1 + c0) =
        pixel (2 ^ 24 * b3 + 2 ^ 16 * b2 + 2 ^ 8 * b1 + b0) := by
  have e := pixel_bytes b3 b2 b1 b0 h3 h2 h1 h0
  have ep : b3 + 2 ^ 8 * b2 + 2 ^ 16 * b1 = 2 ^ 24 * 0 + 2 ^ 16 * b1 + 2 ^ 8 * b2 + b3 := by
    omega
  obtain ⟨p0, p1, p2, p3⟩ := byteAt_word 0 b1 b2 b3 (by decide) h1 h2 h3
  rw [e]
  refine ⟨rfl, ep ▸ p0, ep ▸ p1, ep ▸ p2, ep ▸ p3, ?_, ?_⟩
  · omega
  · intro c0 hc
    exact pixel_bytes b3 b2 b1 c0 h3 h2 h1 hc

/-- C10 on the word `0x12345678`. -/
theorem pixel_exact_value_witness :
    pixel (2 ^ 24 * 0x12 + 2 ^ 16 * 0x34 + 2 ^ 8 * 0x56 + 0x78) = 0x12 + 2 ^ 8 * 0x34 + 2 ^ 16 * 0x56 ∧
    pixel 0x12345678 = 0x563412 :=
  ⟨(pixel_exact_value 0x12 0x34 0x56 0x78 (by decide) (by decide) (by decide) (by decide)).1,
   by decide⟩

theorem word_bytes (x : Nat) (hx : x < 2 ^ 32) :
    ∃ b3 b2 b1 b0, b3 < 256 ∧ b2 < 256 ∧ b1 < 256 ∧ b0 < 256 ∧
      x = 2 ^ 24 * b3 + 2 ^ 16 * b2 + 2 ^ 8 * b1 + b0 :=
  ⟨x / 2 ^ 24, x / 2 ^ 16 % 256, x / 2 ^ 8 % 256, x % 256, by omega, by omega, by omega,
    by omega, by omega⟩

/-- C1, as the code has it: the transform moves bytes 3, 2, 1 of the word to
bytes 0, 1, 2 and sets byte 3 to zero; two words have the same image exactly
when they agree on their three upper bytes, so byte 0 of the input is lost. -/
theorem pixel_moves_upper_bytes (x : Nat) (hx : x < 2 ^ 32) :
    byteAt (pixel x) 0 = byteAt x 3 ∧ byteAt (pixel x) 1 = byteAt x 2 ∧
    byteAt (pixel x) 2 = byteAt x 1 ∧ byteAt (pixel x) 3 = 0 ∧
    ∀ y, y < 2 ^ 32 → (pixel x = pixel y ↔ x / 256 = y / 256) := by
  obtain ⟨b3, b2, b1, b0, h3, h2, h1, h0, rfl⟩ := word_bytes x hx
  rw [pixel_bytes b3 b2 b1 b0 h3 h2 h1 h0]
  obtain ⟨-, w1, w2, w3⟩ := byteAt_word b3 b2 b1 b0 h3 h2 h1 h0
  rw [w1, w2, w3]
  have ep : b3 + 2 ^ 8 * b2 + 2 ^ 16 * b1 = 2 ^ 24 * 0 + 2 ^ 16 * b1 + 2 ^ 8 * b2 + b3 := by
    omega
  obtain ⟨p0, p1, p2, p3⟩ := byteAt_word 0 b1 b2 b3 (by decide) h1 h2 h3
  rw [ep]
  refine ⟨p0, p1, p2, p3, ?_⟩
  rw [← ep]
  clear p0 p1 p2 p3 w1 w2 w3 ep
  · intro y hy
    obtain ⟨c3, c2, c1, c0, k3, k2, k1, k0, rfl⟩ := word_bytes y hy
    rw [pixel_bytes c3 c2 c1 c0 k3 k2 k1 k0]
    have ex : (2 ^ 24 * b3 + 2 ^ 16 * b2 + 2 ^ 8 * b1 + b0) / 256 =
        2 ^ 16 * b3 + 2 ^ 8 * b2 + b1 := by omega
    have ey : (2 ^ 24 * c3 + 2 ^ 16 * c2 + 2 ^ 8 * c1 + c0) / 256 =
        2 ^ 16 * c3 + 2 ^ 8 * c2 + c1 := by omega
    rw [ex, ey]
    constructor
    · intro h
      have e3 : b3 = c3 := by omega
      have e2 : b2 = c2 := by omega
      have e1 : b1 = c1 := by omega
      rw [e3, e2, e1]
    · intro h
      have e3 : b3 = c3 := by omega
      have e2 : b2 = c2 := by omega
      have e1 : b1 = c1 := by omega
      rw [e3, e2, e1]

/-- The transform on `0x12345678`, and on a word that differs from it in byte 0 only. -/
theorem pixel_moves_upper_bytes_witness :
    (0x12345678 : Nat) < 2 ^ 32 ∧ byteAt (pixel 0x12345678) 0 = byteAt 0x12345678 3 ∧
    byteAt (pixel 0x12345678) 3 = 0 ∧
    (pixel 0x12345678 = pixel 0x123456FF ↔ 0x12345678 / 256 = 0x123456FF / 256) :=
  ⟨by decide, (pixel_moves_upper_bytes 0x12345678 (by decide)).1,
   (pixel_moves_upper_bytes 0x12345678 (by decide)).2.2.2.1,
   (pixel_moves_upper_bytes 0x12345678 (by decide)).2.2.2.2 0x123456FF (by decide)⟩

/-- C1 as stated fails: the words `1` and `0` have the same image, and byte 3 of
the image of `0xFFFFFFFF` is `0` while every byte of `0xFFFFFFFF` is `255`, so no
map of byte positions, let alone a permutation, describes the transform. -/
theorem pixel_not_byte_permutation :
    pixel 1 = pixel 0 ∧ byteAt (pixel 0xFFFFFFFF) 3 = 0 ∧
    byteAt 0xFFFFFFFF 0 = 255 ∧ byteAt 0xFFFFFFFF 1 = 255 ∧
    byteAt 0xFFFFFFFF 2 = 255 ∧ byteAt 0xFFFFFFFF 3 = 255 ∧
    ¬ ∃ s : Fin 4 → Fin 4, ∀ x, x < 2 ^ 32 → ∀ i : Fin 4,
        byteAt (pixel x) i = byteAt x (s i) := by
  refine ⟨by decide, by decide, by decide, by decide, by decide, by decide, ?_⟩
  rintro ⟨s, hs⟩
  have h := hs 0xFFFFFFFF (by norm_num) 3
  have h3 : byteAt (pixel 0xFFFFFFFF) (3 : Fin 4) = 0 := by decide
  rw [h3] at h
  generalize s 3 = j at h
  fin_cases j <;> revert h <;> decide

end PdfRender
